import Mathlib

/-!
Vision transform operation descriptors (`minddata/dataset/api/transforms.cc`).

A shallow embedding of the factory functions, the `ValidateParams` methods and the
`Build` methods of the twelve vision `TensorOperation` classes.

Conventions of the embedding:

* `std::vector<T>` is `List T`; `v.size()` is `v.length`, `v.empty()` is `v.isEmpty`.
* `int32_t` is `Int` and `uint8_t` is `Nat`: the code only copies and compares these
  values, it performs no arithmetic on them.
* `float` is an arbitrary carrier type `F`: the code only copies floats.
* `std::shared_ptr<T>` is `Option T`, with `nullptr` as `none`.
* `MS_LOG(ERROR) << msg` appends one line to the log, which is passed explicitly.
* `v[i]` on a vector is a checked read `v[i]?`; a read outside the bounds (undefined
  behaviour in the C++ program) makes `Build` return `none`, as does a call through a
  null pointer.
* A kernel object (`TensorOp`) is the record of the constructor arguments it was made from.
-/

namespace mindspore.dataset

/-- Modelled from the spec: the enumeration `BorderType` of pixel-extension policies
(CONSTANT, EDGE, REFLECT); its declaration is in a header outside this file. -/
inductive BorderType where
  | kConstant
  | kEdge
  | kReflect
  deriving DecidableEq

/-- Modelled from the spec: the enumeration `InterpolationMode` of resampling policies
(BILINEAR, NEAREST); its declaration is in a header outside this file. -/
inductive InterpolationMode where
  | kLinear
  | kNearestNeighbour
  deriving DecidableEq

/-- The log: the lines written so far by `MS_LOG(ERROR)`. -/
abbrev Log := List String

/-- One `MS_LOG(ERROR) << msg` statement. -/
def MS_LOG_ERROR (msg : String) (log : Log) : Log := log ++ [msg]

/-- A kernel, recorded as the constructor call that made it (`std::make_shared<XOp>(args)`). -/
inductive TensorOp (F : Type) where
  | CenterCropOp (crop_height crop_width : Int)
  | CutOutOp (box_height box_width num_patches : Int) (random_color : Bool)
      (fill_r fill_g fill_b : Nat)
  | DecodeOp (rgb : Bool)
  | NormalizeOp (mean_r mean_g mean_b std_r std_g std_b : F)
  | PadOp (pad_top pad_bottom pad_left pad_right : Int) (padding_mode : BorderType)
      (fill_r fill_g fill_b : Nat)
  | RandomColorAdjustOp (brightness_lb brightness_ub contrast_lb contrast_ub
      saturation_lb saturation_ub hue_lb hue_ub : F)
  | RandomCropOp (crop_height crop_width pad_top pad_bottom pad_left pad_right : Int)
      (border_type : BorderType) (pad_if_needed : Bool) (fill_r fill_g fill_b : Nat)
  | RandomHorizontalFlipOp (probability : F)
  | RandomRotationOp (start_degree end_degree center_x center_y : F)
      (interpolation : InterpolationMode) (expand : Bool) (fill_r fill_g fill_b : Nat)
  | RandomVerticalFlipOp (probability : F)
  | ResizeOp (height width : Int) (interpolation : InterpolationMode)
  | UniformAugOp (tensor_ops : List (TensorOp F)) (num_ops : Int)

namespace api.vision

/-! ## Descriptor classes: the stored members -/

structure CenterCropOperation where
  size_ : List Int

structure CutOutOperation where
  length_ : Int
  num_patches_ : Int

structure DecodeOperation where
  rgb_ : Bool

structure NormalizeOperation (F : Type) where
  mean_ : List F
  std_ : List F

structure PadOperation where
  padding_ : List Int
  fill_value_ : List Nat
  padding_mode_ : BorderType

structure RandomColorAdjustOperation (F : Type) where
  brightness_ : List F
  contrast_ : List F
  saturation_ : List F
  hue_ : List F

structure RandomCropOperation where
  size_ : List Int
  padding_ : List Int
  pad_if_needed_ : Bool
  fill_value_ : List Nat

structure RandomHorizontalFlipOperation (F : Type) where
  probability_ : F

structure RandomRotationOperation (F : Type) where
  degrees_ : List F
  interpolation_mode_ : InterpolationMode
  expand_ : Bool
  center_ : List F
  fill_value_ : List Nat

structure RandomVerticalFlipOperation (F : Type) where
  probability_ : F

structure ResizeOperation where
  size_ : List Int
  interpolation_ : InterpolationMode

/-- The class hierarchy under `TensorOperation`, as a closed variant. The members of
`UniformAugOperation` are the fields of its constructor: `transforms_` is a vector of
shared pointers to `TensorOperation`, any of which may be null. -/
inductive TensorOperation (F : Type) where
  | CenterCrop (op : CenterCropOperation)
  | CutOut (op : CutOutOperation)
  | Decode (op : DecodeOperation)
  | Normalize (op : NormalizeOperation F)
  | Pad (op : PadOperation)
  | RandomColorAdjust (op : RandomColorAdjustOperation F)
  | RandomCrop (op : RandomCropOperation)
  | RandomHorizontalFlip (op : RandomHorizontalFlipOperation F)
  | RandomRotation (op : RandomRotationOperation F)
  | RandomVerticalFlip (op : RandomVerticalFlipOperation F)
  | Resize (op : ResizeOperation)
  | UniformAug (transforms_ : List (Option (TensorOperation F))) (num_ops_ : Int)

/-- The class `UniformAugOperation`, for the typed pointer its factory returns. -/
structure UniformAugOperation (F : Type) where
  transforms_ : List (Option (TensorOperation F))
  num_ops_ : Int

variable {F : Type}

/-! ## CenterCropOperation -/

def CenterCropOperation.ValidateParams (op : CenterCropOperation) (log : Log) : Bool × Log :=
  if op.size_.isEmpty || op.size_.length > 2 then
    (false, MS_LOG_ERROR "CenterCrop: size vector has incorrect size." log)
  else
    (true, log)

def CenterCropOperation.Build (op : CenterCropOperation) (log : Log) :
    Option (TensorOp F × Log) := do
  let crop_height ← op.size_[0]?
  let crop_width ← if op.size_.length = 2 then op.size_[1]? else some 0
  return (TensorOp.CenterCropOp crop_height crop_width, log)

/-! ## CutOutOperation -/

def CutOutOperation.ValidateParams (op : CutOutOperation) (log : Log) : Bool × Log :=
  if op.length_ < 0 then
    (false, MS_LOG_ERROR "CutOut: length cannot be negative" log)
  else if op.num_patches_ < 0 then
    (false, MS_LOG_ERROR "CutOut: number of patches cannot be negative" log)
  else
    (true, log)

def CutOutOperation.Build (op : CutOutOperation) (log : Log) : Option (TensorOp F × Log) :=
  some (TensorOp.CutOutOp op.length_ op.length_ op.num_patches_ false 0 0 0, log)

/-! ## DecodeOperation -/

def DecodeOperation.ValidateParams (_op : DecodeOperation) (log : Log) : Bool × Log :=
  (true, log)

def DecodeOperation.Build (op : DecodeOperation) (log : Log) : Option (TensorOp F × Log) :=
  some (TensorOp.DecodeOp op.rgb_, log)

/-! ## NormalizeOperation -/

def NormalizeOperation.ValidateParams (op : NormalizeOperation F) (log : Log) : Bool × Log :=
  if op.mean_.length ≠ 3 then
    (false, MS_LOG_ERROR
      ("Normalize: mean vector has incorrect size: " ++ toString op.mean_.length) log)
  else if op.std_.length ≠ 3 then
    (false, MS_LOG_ERROR
      ("Normalize: std vector has incorrect size: " ++ toString op.std_.length) log)
  else
    (true, log)

def NormalizeOperation.Build (op : NormalizeOperation F) (log : Log) :
    Option (TensorOp F × Log) := do
  let mean_r ← op.mean_[0]?
  let mean_g ← op.mean_[1]?
  let mean_b ← op.mean_[2]?
  let std_r ← op.std_[0]?
  let std_g ← op.std_[1]?
  let std_b ← op.std_[2]?
  return (TensorOp.NormalizeOp mean_r mean_g mean_b std_r std_g std_b, log)

/-! ## PadOperation -/

def PadOperation.ValidateParams (op : PadOperation) (log : Log) : Bool × Log :=
  if op.padding_.isEmpty || op.padding_.length = 3 || op.padding_.length > 4 then
    (false, MS_LOG_ERROR "Pad: padding vector has incorrect size: padding.size()" log)
  else if op.fill_value_.isEmpty
      || (op.fill_value_.length ≠ 1 && op.fill_value_.length ≠ 3) then
    (false, MS_LOG_ERROR "Pad: fill_value vector has incorrect size: fill_value.size()" log)
  else
    (true, log)

/-- The `switch (padding_.size())` of `PadOperation::Build`: the four sides in the order
`(pad_top, pad_bottom, pad_left, pad_right)`. -/
def PadOperation.sides (padding_ : List Int) : Option (Int × Int × Int × Int) :=
  match padding_.length with
  | 1 => do
    let pad_left ← padding_[0]?
    let pad_top ← padding_[0]?
    let pad_right ← padding_[0]?
    let pad_bottom ← padding_[0]?
    return (pad_top, pad_bottom, pad_left, pad_right)
  | 2 => do
    let pad_left ← padding_[0]?
    let pad_top ← padding_[1]?
    let pad_right ← padding_[0]?
    let pad_bottom ← padding_[1]?
    return (pad_top, pad_bottom, pad_left, pad_right)
  | _ => do
    let pad_left ← padding_[0]?
    let pad_top ← padding_[1]?
    let pad_right ← padding_[2]?
    let pad_bottom ← padding_[3]?
    return (pad_top, pad_bottom, pad_left, pad_right)

def PadOperation.Build (op : PadOperation) (log : Log) : Option (TensorOp F × Log) := do
  let (pad_top, pad_bottom, pad_left, pad_right) ← PadOperation.sides op.padding_
  let fill_r ← op.fill_value_[0]?
  let fill_g ← op.fill_value_[0]?
  let fill_b ← op.fill_value_[0]?
  let (fill_r, fill_g, fill_b) ←
    if op.fill_value_.length = 3 then do
      let r ← op.fill_value_[0]?
      let g ← op.fill_value_[1]?
      let b ← op.fill_value_[2]?
      pure (r, g, b)
    else
      pure (fill_r, fill_g, fill_b)
  return (TensorOp.PadOp pad_top pad_bottom pad_left pad_right op.padding_mode_
    fill_r fill_g fill_b, log)

/-! ## RandomColorAdjustOperation -/

def RandomColorAdjustOperation.ValidateParams (op : RandomColorAdjustOperation F)
    (log : Log) : Bool × Log :=
  if op.brightness_.isEmpty || op.brightness_.length > 2 then
    (false, MS_LOG_ERROR
      "RandomColorAdjust: brightness must be a vector of one or two values" log)
  else if op.contrast_.isEmpty || op.contrast_.length > 2 then
    (false, MS_LOG_ERROR
      "RandomColorAdjust: contrast must be a vector of one or two values" log)
  else if op.saturation_.isEmpty || op.saturation_.length > 2 then
    (false, MS_LOG_ERROR
      "RandomColorAdjust: saturation must be a vector of one or two values" log)
  else if op.hue_.isEmpty || op.hue_.length > 2 then
    (false, MS_LOG_ERROR "RandomColorAdjust: hue must be a vector of one or two values" log)
  else
    (true, log)

def RandomColorAdjustOperation.Build (op : RandomColorAdjustOperation F) (log : Log) :
    Option (TensorOp F × Log) := do
  let brightness_lb ← op.brightness_[0]?
  let brightness_ub ← op.brightness_[0]?
  let brightness_ub ← if op.brightness_.length = 2 then op.brightness_[1]? else pure brightness_ub
  let contrast_lb ← op.contrast_[0]?
  let contrast_ub ← op.contrast_[0]?
  let contrast_ub ← if op.contrast_.length = 2 then op.contrast_[1]? else pure contrast_ub
  let saturation_lb ← op.saturation_[0]?
  let saturation_ub ← op.saturation_[0]?
  let saturation_ub ← if op.saturation_.length = 2 then op.saturation_[1]? else pure saturation_ub
  let hue_lb ← op.hue_[0]?
  let hue_ub ← op.hue_[0]?
  let hue_ub ← if op.hue_.length = 2 then op.hue_[1]? else pure hue_ub
  return (TensorOp.RandomColorAdjustOp brightness_lb brightness_ub contrast_lb contrast_ub
    saturation_lb saturation_ub hue_lb hue_ub, log)

/-! ## RandomCropOperation -/

def RandomCropOperation.ValidateParams (op : RandomCropOperation) (log : Log) : Bool × Log :=
  if op.size_.isEmpty || op.size_.length > 2 then
    (false, MS_LOG_ERROR
      ("RandomCrop: size vector has incorrect size: " ++ toString op.size_.length) log)
  else if op.padding_.isEmpty || op.padding_.length ≠ 4 then
    (false, MS_LOG_ERROR "RandomCrop: padding vector has incorrect size: padding.size()" log)
  else if op.fill_value_.isEmpty || op.fill_value_.length ≠ 3 then
    (false, MS_LOG_ERROR
      "RandomCrop: fill_value vector has incorrect size: fill_value.size()" log)
  else
    (true, log)

def RandomCropOperation.Build (op : RandomCropOperation) (log : Log) :
    Option (TensorOp F × Log) := do
  let crop_height ← op.size_[0]?
  let pad_top ← op.padding_[0]?
  let pad_bottom ← op.padding_[1]?
  let pad_left ← op.padding_[2]?
  let pad_right ← op.padding_[3]?
  let fill_r ← op.fill_value_[0]?
  let fill_g ← op.fill_value_[1]?
  let fill_b ← op.fill_value_[2]?
  let crop_width ← if op.size_.length = 2 then op.size_[1]? else some 0
  return (TensorOp.RandomCropOp crop_height crop_width pad_top pad_bottom pad_left pad_right
    BorderType.kConstant op.pad_if_needed_ fill_r fill_g fill_b, log)

/-! ## RandomHorizontalFlipOperation -/

def RandomHorizontalFlipOperation.ValidateParams (_op : RandomHorizontalFlipOperation F)
    (log : Log) : Bool × Log :=
  (true, log)

def RandomHorizontalFlipOperation.Build (op : RandomHorizontalFlipOperation F) (log : Log) :
    Option (TensorOp F × Log) :=
  some (TensorOp.RandomHorizontalFlipOp op.probability_, log)

/-! ## RandomRotationOperation -/

def RandomRotationOperation.ValidateParams (op : RandomRotationOperation F) (log : Log) :
    Bool × Log :=
  if op.degrees_.isEmpty || op.degrees_.length ≠ 2 then
    (false, MS_LOG_ERROR
      "RandomRotation: degrees vector has incorrect size: degrees.size()" log)
  else if op.center_.isEmpty || op.center_.length ≠ 2 then
    (false, MS_LOG_ERROR "RandomRotation: center vector has incorrect size: center.size()" log)
  else if op.fill_value_.isEmpty || op.fill_value_.length ≠ 3 then
    (false, MS_LOG_ERROR
      "RandomRotation: fill_value vector has incorrect size: fill_value.size()" log)
  else
    (true, log)

def RandomRotationOperation.Build (op : RandomRotationOperation F) (log : Log) :
    Option (TensorOp F × Log) := do
  let start_degree ← op.degrees_[0]?
  let end_degree ← op.degrees_[1]?
  let center_x ← op.center_[0]?
  let center_y ← op.center_[1]?
  let fill_r ← op.fill_value_[0]?
  let fill_g ← op.fill_value_[1]?
  let fill_b ← op.fill_value_[2]?
  return (TensorOp.RandomRotationOp start_degree end_degree center_x center_y
    op.interpolation_mode_ op.expand_ fill_r fill_g fill_b, log)

/-! ## RandomVerticalFlipOperation -/

def RandomVerticalFlipOperation.ValidateParams (_op : RandomVerticalFlipOperation F)
    (log : Log) : Bool × Log :=
  (true, log)

def RandomVerticalFlipOperation.Build (op : RandomVerticalFlipOperation F) (log : Log) :
    Option (TensorOp F × Log) :=
  some (TensorOp.RandomVerticalFlipOp op.probability_, log)

/-! ## ResizeOperation -/

def ResizeOperation.ValidateParams (op : ResizeOperation) (log : Log) : Bool × Log :=
  if op.size_.isEmpty || op.size_.length > 2 then
    (false, MS_LOG_ERROR
      ("Resize: size vector has incorrect size: " ++ toString op.size_.length) log)
  else
    (true, log)

def ResizeOperation.Build (op : ResizeOperation) (log : Log) : Option (TensorOp F × Log) := do
  let height ← op.size_[0]?
  let width ← if op.size_.length = 2 then op.size_[1]? else some 0
  return (TensorOp.ResizeOp height width op.interpolation_, log)

/-! ## UniformAugOperation and the virtual methods of `TensorOperation` -/

def UniformAugOperation.ValidateParams (_op : UniformAugOperation F) (log : Log) :
    Bool × Log :=
  (true, log)

/-- The virtual call `op->ValidateParams()`. -/
def TensorOperation.ValidateParams : TensorOperation F → Log → Bool × Log
  | .CenterCrop op, log => op.ValidateParams log
  | .CutOut op, log => op.ValidateParams log
  | .Decode op, log => op.ValidateParams log
  | .Normalize op, log => op.ValidateParams log
  | .Pad op, log => op.ValidateParams log
  | .RandomColorAdjust op, log => op.ValidateParams log
  | .RandomCrop op, log => op.ValidateParams log
  | .RandomHorizontalFlip op, log => op.ValidateParams log
  | .RandomRotation op, log => op.ValidateParams log
  | .RandomVerticalFlip op, log => op.ValidateParams log
  | .Resize op, log => op.ValidateParams log
  | .UniformAug transforms_ num_ops_, log =>
    UniformAugOperation.ValidateParams ⟨transforms_, num_ops_⟩ log

mutual
/-- The virtual call `op->Build()`; the last case is `UniformAugOperation::Build`. -/
def TensorOperation.Build : TensorOperation F → Log → Option (TensorOp F × Log)
  | .CenterCrop op, log => op.Build log
  | .CutOut op, log => op.Build log
  | .Decode op, log => op.Build log
  | .Normalize op, log => op.Build log
  | .Pad op, log => op.Build log
  | .RandomColorAdjust op, log => op.Build log
  | .RandomCrop op, log => op.Build log
  | .RandomHorizontalFlip op, log => op.Build log
  | .RandomRotation op, log => op.Build log
  | .RandomVerticalFlip op, log => op.Build log
  | .Resize op, log => op.Build log
  | .UniformAug transforms_ num_ops_, log =>
    match TensorOperation.BuildEach transforms_ log with
    | some (tensor_ops, log1) => some (TensorOp.UniformAugOp tensor_ops num_ops_, log1)
    | none => none
/-- The `std::transform` of `UniformAugOperation::Build`: calls `op->Build()` on each
element in order and appends the result to `tensor_ops`. -/
def TensorOperation.BuildEach :
    List (Option (TensorOperation F)) → Log → Option (List (TensorOp F) × Log)
  | [], log => some ([], log)
  | none :: _, _ => none
  | some op :: rest, log =>
    match TensorOperation.Build op log with
    | some (tensor_op, log1) =>
      match TensorOperation.BuildEach rest log1 with
      | some (tensor_ops, log2) => some (tensor_op :: tensor_ops, log2)
      | none => none
    | none => none
end

def UniformAugOperation.Build (op : UniformAugOperation F) (log : Log) :
    Option (TensorOp F × Log) :=
  TensorOperation.Build (TensorOperation.UniformAug op.transforms_ op.num_ops_) log

/-! ## Factory functions -/

/-- Function to create CenterCropOperation. -/
def CenterCrop (size : List Int) (log : Log) : Option CenterCropOperation × Log :=
  let op : CenterCropOperation := ⟨size⟩
  match op.ValidateParams log with
  | (false, log1) => (none, log1)
  | (true, log1) => (some op, log1)

/-- Function to create CutOutOp. -/
def CutOut (length num_patches : Int) (log : Log) : Option CutOutOperation × Log :=
  let op : CutOutOperation := ⟨length, num_patches⟩
  match op.ValidateParams log with
  | (false, log1) => (none, log1)
  | (true, log1) => (some op, log1)

/-- Function to create DecodeOperation. -/
def Decode (rgb : Bool) (log : Log) : Option DecodeOperation × Log :=
  let op : DecodeOperation := ⟨rgb⟩
  match op.ValidateParams log with
  | (false, log1) => (none, log1)
  | (true, log1) => (some op, log1)

/-- Function to create NormalizeOperation. -/
def Normalize (mean std : List F) (log : Log) : Option (NormalizeOperation F) × Log :=
  let op : NormalizeOperation F := ⟨mean, std⟩
  match op.ValidateParams log with
  | (false, log1) => (none, log1)
  | (true, log1) => (some op, log1)

/-- Function to create PadOperation. -/
def Pad (padding : List Int) (fill_value : List Nat) (padding_mode : BorderType) (log : Log) :
    Option PadOperation × Log :=
  let op : PadOperation := ⟨padding, fill_value, padding_mode⟩
  match op.ValidateParams log with
  | (false, log1) => (none, log1)
  | (true, log1) => (some op, log1)

/-- Function to create RandomColorAdjustOperation. -/
def RandomColorAdjust (brightness contrast saturation hue : List F) (log : Log) :
    Option (RandomColorAdjustOperation F) × Log :=
  let op : RandomColorAdjustOperation F := ⟨brightness, contrast, saturation, hue⟩
  match op.ValidateParams log with
  | (false, log1) => (none, log1)
  | (true, log1) => (some op, log1)

/-- Function to create RandomCropOperation. -/
def RandomCrop (size padding : List Int) (pad_if_needed : Bool) (fill_value : List Nat)
    (log : Log) : Option RandomCropOperation × Log :=
  let op : RandomCropOperation := ⟨size, padding, pad_if_needed, fill_value⟩
  match op.ValidateParams log with
  | (false, log1) => (none, log1)
  | (true, log1) => (some op, log1)

/-- Function to create RandomHorizontalFlipOperation. -/
def RandomHorizontalFlip (prob : F) (log : Log) :
    Option (RandomHorizontalFlipOperation F) × Log :=
  let op : RandomHorizontalFlipOperation F := ⟨prob⟩
  match op.ValidateParams log with
  | (false, log1) => (none, log1)
  | (true, log1) => (some op, log1)

/-- Function to create RandomRotationOperation. -/
def RandomRotation (degrees : List F) (resample : InterpolationMode) (expand : Bool)
    (center : List F) (fill_value : List Nat) (log : Log) :
    Option (RandomRotationOperation F) × Log :=
  let op : RandomRotationOperation F := ⟨degrees, resample, expand, center, fill_value⟩
  match op.ValidateParams log with
  | (false, log1) => (none, log1)
  | (true, log1) => (some op, log1)

/-- Function to create RandomVerticalFlipOperation. -/
def RandomVerticalFlip (prob : F) (log : Log) :
    Option (RandomVerticalFlipOperation F) × Log :=
  let op : RandomVerticalFlipOperation F := ⟨prob⟩
  match op.ValidateParams log with
  | (false, log1) => (none, log1)
  | (true, log1) => (some op, log1)

/-- Function to create ResizeOperation. -/
def Resize (size : List Int) (interpolation : InterpolationMode) (log : Log) :
    Option ResizeOperation × Log :=
  let op : ResizeOperation := ⟨size, interpolation⟩
  match op.ValidateParams log with
  | (false, log1) => (none, log1)
  | (true, log1) => (some op, log1)

/-- Function to create UniformAugOperation. -/
def UniformAugment (transforms : List (Option (TensorOperation F))) (num_ops : Int)
    (log : Log) : Option (UniformAugOperation F) × Log :=
  let op : UniformAugOperation F := ⟨transforms, num_ops⟩
  match op.ValidateParams log with
  | (false, log1) => (none, log1)
  | (true, log1) => (some op, log1)

/-- The factory call of an operator on a parameter tuple. The tuple is given as the
descriptor that stores it; the typed pointer a factory returns is viewed as a pointer to
`TensorOperation`. -/
def factory : TensorOperation F → Log → Option (TensorOperation F) × Log
  | .CenterCrop op, log =>
    let r := CenterCrop op.size_ log
    (r.1.map TensorOperation.CenterCrop, r.2)
  | .CutOut op, log =>
    let r := CutOut op.length_ op.num_patches_ log
    (r.1.map TensorOperation.CutOut, r.2)
  | .Decode op, log =>
    let r := Decode op.rgb_ log
    (r.1.map TensorOperation.Decode, r.2)
  | .Normalize op, log =>
    let r := Normalize op.mean_ op.std_ log
    (r.1.map TensorOperation.Normalize, r.2)
  | .Pad op, log =>
    let r := Pad op.padding_ op.fill_value_ op.padding_mode_ log
    (r.1.map TensorOperation.Pad, r.2)
  | .RandomColorAdjust op, log =>
    let r := RandomColorAdjust op.brightness_ op.contrast_ op.saturation_ op.hue_ log
    (r.1.map TensorOperation.RandomColorAdjust, r.2)
  | .RandomCrop op, log =>
    let r := RandomCrop op.size_ op.padding_ op.pad_if_needed_ op.fill_value_ log
    (r.1.map TensorOperation.RandomCrop, r.2)
  | .RandomHorizontalFlip op, log =>
    let r := RandomHorizontalFlip op.probability_ log
    (r.1.map TensorOperation.RandomHorizontalFlip, r.2)
  | .RandomRotation op, log =>
    let r := RandomRotation op.degrees_ op.interpolation_mode_ op.expand_ op.center_
      op.fill_value_ log
    (r.1.map TensorOperation.RandomRotation, r.2)
  | .RandomVerticalFlip op, log =>
    let r := RandomVerticalFlip op.probability_ log
    (r.1.map TensorOperation.RandomVerticalFlip, r.2)
  | .Resize op, log =>
    let r := Resize op.size_ op.interpolation_ log
    (r.1.map TensorOperation.Resize, r.2)
  | .UniformAug transforms_ num_ops_, log =>
    let r := UniformAugment transforms_ num_ops_ log
    (r.1.map (fun op => TensorOperation.UniformAug op.transforms_ op.num_ops_), r.2)

/-! ## The validation rules as the specification's table states them -/

/-- The rule of the specification's data-model table for each operator, on the stored
parameter tuple (written from the table, not from the code). -/
def Spec.satisfiesRules : TensorOperation F → Prop
  | .CenterCrop op => op.size_.length = 1 ∨ op.size_.length = 2
  | .CutOut op => 0 ≤ op.length_ ∧ 0 ≤ op.num_patches_
  | .Decode _ => True
  | .Normalize op => op.mean_.length = 3 ∧ op.std_.length = 3
  | .Pad op =>
    (op.padding_.length = 1 ∨ op.padding_.length = 2 ∨ op.padding_.length = 4)
      ∧ (op.fill_value_.length = 1 ∨ op.fill_value_.length = 3)
  | .RandomColorAdjust op =>
    (op.brightness_.length = 1 ∨ op.brightness_.length = 2)
      ∧ (op.contrast_.length = 1 ∨ op.contrast_.length = 2)
      ∧ (op.saturation_.length = 1 ∨ op.saturation_.length = 2)
      ∧ (op.hue_.length = 1 ∨ op.hue_.length = 2)
  | .RandomCrop op =>
    (op.size_.length = 1 ∨ op.size_.length = 2) ∧ op.padding_.length = 4
      ∧ op.fill_value_.length = 3
  | .RandomHorizontalFlip _ => True
  | .RandomRotation op =>
    op.degrees_.length = 2 ∧ op.center_.length = 2 ∧ op.fill_value_.length = 3
  | .RandomVerticalFlip _ => True
  | .Resize op => op.size_.length = 1 ∨ op.size_.length = 2
  | .UniformAug _ _ => True

/-- The size-1 broadcast rule of the specification for a bound pair: `(v, v)` for one value,
`(v[0], v[1])` for two (written from the table, not from the code). -/
def Spec.broadcastPair (v : List F) (lb ub : F) : Prop :=
  (v.length = 1 → v[0]? = some lb ∧ v[0]? = some ub)
    ∧ (v.length = 2 → v[0]? = some lb ∧ v[1]? = some ub)

instance Spec.decidableSatisfiesRules (P : TensorOperation F) :
    Decidable (Spec.satisfiesRules P) := by
  cases P <;> unfold Spec.satisfiesRules <;> infer_instance

/-! ## Descriptors that are ready for `Build` -/

mutual
/-- The precondition of `Build`: `ValidateParams` returns true on the descriptor and, for a
`UniformAugOperation`, every child pointer is non-null and its descriptor satisfies the
same condition. -/
def TensorOperation.validated : TensorOperation F → Log → Bool
  | .UniformAug transforms_ num_ops_, log =>
    (TensorOperation.ValidateParams (.UniformAug transforms_ num_ops_) log).1
      && TensorOperation.validatedEach transforms_ log
  | op, log => (op.ValidateParams log).1
/-- Every pointer of the list is non-null and points to a `validated` descriptor. -/
def TensorOperation.validatedEach : List (Option (TensorOperation F)) → Log → Bool
  | [], _ => true
  | none :: _, _ => false
  | some op :: rest, log =>
    TensorOperation.validated op log && TensorOperation.validatedEach rest log
end

/-- A call that, whenever it returns, returns the log it was given: it has written no
line. -/
def KeepsLog {α : Type} (m : Option (α × Log)) (log : Log) : Prop :=
  ∀ r log1, m = some (r, log1) → log1 = log

/-! ## The rules of the table, one by one -/

/-- One rule of the specification's table evaluated on a parameter tuple: whether the tuple
satisfies it, and the diagnostic line with which the code reports its violation. -/
structure Spec.Rule where
  holds : Bool
  line : String
  deriving DecidableEq

/-- The rules of the table for the operator of a descriptor, in the order in which
`ValidateParams` checks them (the conditions are written from the table; the lines are the
texts of the source). -/
def Spec.rulesInOrder : TensorOperation F → List Spec.Rule
  | .CenterCrop op =>
    [⟨decide (op.size_.length = 1 ∨ op.size_.length = 2),
      "CenterCrop: size vector has incorrect size."⟩]
  | .CutOut op =>
    [⟨decide (0 ≤ op.length_), "CutOut: length cannot be negative"⟩,
     ⟨decide (0 ≤ op.num_patches_), "CutOut: number of patches cannot be negative"⟩]
  | .Decode _ => []
  | .Normalize op =>
    [⟨decide (op.mean_.length = 3),
      "Normalize: mean vector has incorrect size: " ++ toString op.mean_.length⟩,
     ⟨decide (op.std_.length = 3),
      "Normalize: std vector has incorrect size: " ++ toString op.std_.length⟩]
  | .Pad op =>
    [⟨decide (op.padding_.length = 1 ∨ op.padding_.length = 2 ∨ op.padding_.length = 4),
      "Pad: padding vector has incorrect size: padding.size()"⟩,
     ⟨decide (op.fill_value_.length = 1 ∨ op.fill_value_.length = 3),
      "Pad: fill_value vector has incorrect size: fill_value.size()"⟩]
  | .RandomColorAdjust op =>
    [⟨decide (op.brightness_.length = 1 ∨ op.brightness_.length = 2),
      "RandomColorAdjust: brightness must be a vector of one or two values"⟩,
     ⟨decide (op.contrast_.length = 1 ∨ op.contrast_.length = 2),
      "RandomColorAdjust: contrast must be a vector of one or two values"⟩,
     ⟨decide (op.saturation_.length = 1 ∨ op.saturation_.length = 2),
      "RandomColorAdjust: saturation must be a vector of one or two values"⟩,
     ⟨decide (op.hue_.length = 1 ∨ op.hue_.length = 2),
      "RandomColorAdjust: hue must be a vector of one or two values"⟩]
  | .RandomCrop op =>
    [⟨decide (op.size_.length = 1 ∨ op.size_.length = 2),
      "RandomCrop: size vector has incorrect size: " ++ toString op.size_.length⟩,
     ⟨decide (op.padding_.length = 4),
      "RandomCrop: padding vector has incorrect size: padding.size()"⟩,
     ⟨decide (op.fill_value_.length = 3),
      "RandomCrop: fill_value vector has incorrect size: fill_value.size()"⟩]
  | .RandomHorizontalFlip _ => []
  | .RandomRotation op =>
    [⟨decide (op.degrees_.length = 2),
      "RandomRotation: degrees vector has incorrect size: degrees.size()"⟩,
     ⟨decide (op.center_.length = 2),
      "RandomRotation: center vector has incorrect size: center.size()"⟩,
     ⟨decide (op.fill_value_.length = 3),
      "RandomRotation: fill_value vector has incorrect size: fill_value.size()"⟩]
  | .RandomVerticalFlip _ => []
  | .Resize op =>
    [⟨decide (op.size_.length = 1 ∨ op.size_.length = 2),
      "Resize: size vector has incorrect size: " ++ toString op.size_.length⟩]
  | .UniformAug _ _ => []

/-- The first rule, in the check order, that the parameter tuple violates. -/
def Spec.firstViolation (op : TensorOperation F) : Option Spec.Rule :=
  (Spec.rulesInOrder op).find? (fun r => !r.holds)

/-- Two parameter tuples of the same operator whose corresponding vectors have equal
lengths; the scalar and enumeration parameters are free. -/
def Spec.sameLengths : TensorOperation F → TensorOperation F → Prop
  | .CenterCrop a, .CenterCrop b => a.size_.length = b.size_.length
  | .CutOut _, .CutOut _ => True
  | .Decode _, .Decode _ => True
  | .Normalize a, .Normalize b =>
    a.mean_.length = b.mean_.length ∧ a.std_.length = b.std_.length
  | .Pad a, .Pad b =>
    a.padding_.length = b.padding_.length ∧ a.fill_value_.length = b.fill_value_.length
  | .RandomColorAdjust a, .RandomColorAdjust b =>
    a.brightness_.length = b.brightness_.length ∧ a.contrast_.length = b.contrast_.length
      ∧ a.saturation_.length = b.saturation_.length ∧ a.hue_.length = b.hue_.length
  | .RandomCrop a, .RandomCrop b =>
    a.size_.length = b.size_.length ∧ a.padding_.length = b.padding_.length
      ∧ a.fill_value_.length = b.fill_value_.length
  | .RandomHorizontalFlip _, .RandomHorizontalFlip _ => True
  | .RandomRotation a, .RandomRotation b =>
    a.degrees_.length = b.degrees_.length ∧ a.center_.length = b.center_.length
      ∧ a.fill_value_.length = b.fill_value_.length
  | .RandomVerticalFlip _, .RandomVerticalFlip _ => True
  | .Resize a, .Resize b => a.size_.length = b.size_.length
  | .UniformAug ta _, .UniformAug tb _ => ta.length = tb.length
  | _, _ => False

/-- Whether the descriptor is a `CutOutOperation`. -/
def TensorOperation.isCutOut : TensorOperation F → Bool
  | .CutOut _ => true
  | _ => false

/-! ## Projections of a kernel -/

/-- The four sides `(pad_top, pad_bottom, pad_left, pad_right)` a `PadOp` or a
`RandomCropOp` kernel was constructed with. -/
def kernelSides : TensorOp F → Option (Int × Int × Int × Int)
  | .PadOp pad_top pad_bottom pad_left pad_right _ _ _ _ =>
    some (pad_top, pad_bottom, pad_left, pad_right)
  | .RandomCropOp _ _ pad_top pad_bottom pad_left pad_right _ _ _ _ _ =>
    some (pad_top, pad_bottom, pad_left, pad_right)
  | _ => none

/-! ## Member functions in state-passing form

The definitions above give each member function the members it reads as an argument, so
they cannot express a write to a member. The definitions of this section are a second
translation of the same bodies in which the object `*this` is part of the state that a
call receives and returns. -/

/-- A member function of a class with members `S`, in state-passing form: the state is the
object `*this` together with the log, both of which a body may read and write, and the
result is `none` when the body reads a vector outside its bounds. -/
abbrev Method (S α : Type) := StateT (S × Log) Option α

/-- Read the members of `*this`. -/
def readThis {S : Type} : Method S S :=
  fun state => some (state.1, state)

/-- The statement `MS_LOG(ERROR) << msg` inside a member function. -/
def logError {S : Type} (msg : String) : Method S Unit :=
  fun state => some ((), (state.1, MS_LOG_ERROR msg state.2))

/-- The read `v[i]` of a vector inside a member function. -/
def readAt {S α : Type} (v : List α) (i : Nat) : Method S α :=
  fun state => (v[i]?).map (fun a => (a, state))

def CenterCropOperation.ValidateParamsM : Method CenterCropOperation Bool := do
  let this ← readThis
  if this.size_.isEmpty || this.size_.length > 2 then
    logError "CenterCrop: size vector has incorrect size."
    return false
  else
    return true

def CenterCropOperation.BuildM : Method CenterCropOperation (TensorOp F) := do
  let this ← readThis
  let crop_height ← readAt this.size_ 0
  let crop_width ← if this.size_.length = 2 then readAt this.size_ 1 else pure 0
  return TensorOp.CenterCropOp crop_height crop_width

def CutOutOperation.ValidateParamsM : Method CutOutOperation Bool := do
  let this ← readThis
  if this.length_ < 0 then
    logError "CutOut: length cannot be negative"
    return false
  else if this.num_patches_ < 0 then
    logError "CutOut: number of patches cannot be negative"
    return false
  else
    return true

def CutOutOperation.BuildM : Method CutOutOperation (TensorOp F) := do
  let this ← readThis
  return TensorOp.CutOutOp this.length_ this.length_ this.num_patches_ false 0 0 0

def DecodeOperation.ValidateParamsM : Method DecodeOperation Bool :=
  return true

def DecodeOperation.BuildM : Method DecodeOperation (TensorOp F) := do
  let this ← readThis
  return TensorOp.DecodeOp this.rgb_

def NormalizeOperation.ValidateParamsM : Method (NormalizeOperation F) Bool := do
  let this ← readThis
  if this.mean_.length ≠ 3 then
    logError ("Normalize: mean vector has incorrect size: " ++ toString this.mean_.length)
    return false
  else if this.std_.length ≠ 3 then
    logError ("Normalize: std vector has incorrect size: " ++ toString this.std_.length)
    return false
  else
    return true

def NormalizeOperation.BuildM : Method (NormalizeOperation F) (TensorOp F) := do
  let this ← readThis
  let mean_r ← readAt this.mean_ 0
  let mean_g ← readAt this.mean_ 1
  let mean_b ← readAt this.mean_ 2
  let std_r ← readAt this.std_ 0
  let std_g ← readAt this.std_ 1
  let std_b ← readAt this.std_ 2
  return TensorOp.NormalizeOp mean_r mean_g mean_b std_r std_g std_b

def PadOperation.ValidateParamsM : Method PadOperation Bool := do
  let this ← readThis
  if this.padding_.isEmpty || this.padding_.length = 3 || this.padding_.length > 4 then
    logError "Pad: padding vector has incorrect size: padding.size()"
    return false
  else if this.fill_value_.isEmpty
      || (this.fill_value_.length ≠ 1 && this.fill_value_.length ≠ 3) then
    logError "Pad: fill_value vector has incorrect size: fill_value.size()"
    return false
  else
    return true

/-- The `switch (padding_.size())` of `PadOperation::Build` inside the member function: the
four sides in the order `(pad_top, pad_bottom, pad_left, pad_right)`. -/
def PadOperation.sidesM (padding_ : List Int) : Method PadOperation (Int × Int × Int × Int) :=
  match padding_.length with
  | 1 => do
    let pad_left ← readAt padding_ 0
    let pad_top ← readAt padding_ 0
    let pad_right ← readAt padding_ 0
    let pad_bottom ← readAt padding_ 0
    return (pad_top, pad_bottom, pad_left, pad_right)
  | 2 => do
    let pad_left ← readAt padding_ 0
    let pad_top ← readAt padding_ 1
    let pad_right ← readAt padding_ 0
    let pad_bottom ← readAt padding_ 1
    return (pad_top, pad_bottom, pad_left, pad_right)
  | _ => do
    let pad_left ← readAt padding_ 0
    let pad_top ← readAt padding_ 1
    let pad_right ← readAt padding_ 2
    let pad_bottom ← readAt padding_ 3
    return (pad_top, pad_bottom, pad_left, pad_right)

def PadOperation.BuildM : Method PadOperation (TensorOp F) := do
  let this ← readThis
  let (pad_top, pad_bottom, pad_left, pad_right) ← PadOperation.sidesM this.padding_
  let fill_r ← readAt this.fill_value_ 0
  let fill_g ← readAt this.fill_value_ 0
  let fill_b ← readAt this.fill_value_ 0
  let (fill_r, fill_g, fill_b) ←
    if this.fill_value_.length = 3 then do
      let r ← readAt this.fill_value_ 0
      let g ← readAt this.fill_value_ 1
      let b ← readAt this.fill_value_ 2
      pure (r, g, b)
    else
      pure (fill_r, fill_g, fill_b)
  return TensorOp.PadOp pad_top pad_bottom pad_left pad_right this.padding_mode_
    fill_r fill_g fill_b

def RandomColorAdjustOperation.ValidateParamsM :
    Method (RandomColorAdjustOperation F) Bool := do
  let this ← readThis
  if this.brightness_.isEmpty || this.brightness_.length > 2 then
    logError "RandomColorAdjust: brightness must be a vector of one or two values"
    return false
  else if this.contrast_.isEmpty || this.contrast_.length > 2 then
    logError "RandomColorAdjust: contrast must be a vector of one or two values"
    return false
  else if this.saturation_.isEmpty || this.saturation_.length > 2 then
    logError "RandomColorAdjust: saturation must be a vector of one or two values"
    return false
  else if this.hue_.isEmpty || this.hue_.length > 2 then
    logError "RandomColorAdjust: hue must be a vector of one or two values"
    return false
  else
    return true

def RandomColorAdjustOperation.BuildM :
    Method (RandomColorAdjustOperation F) (TensorOp F) := do
  let this ← readThis
  let brightness_lb ← readAt this.brightness_ 0
  let brightness_ub ← readAt this.brightness_ 0
  let brightness_ub ←
    if this.brightness_.length = 2 then readAt this.brightness_ 1 else pure brightness_ub
  let contrast_lb ← readAt this.contrast_ 0
  let contrast_ub ← readAt this.contrast_ 0
  let contrast_ub ←
    if this.contrast_.length = 2 then readAt this.contrast_ 1 else pure contrast_ub
  let saturation_lb ← readAt this.saturation_ 0
  let saturation_ub ← readAt this.saturation_ 0
  let saturation_ub ←
    if this.saturation_.length = 2 then readAt this.saturation_ 1 else pure saturation_ub
  let hue_lb ← readAt this.hue_ 0
  let hue_ub ← readAt this.hue_ 0
  let hue_ub ← if this.hue_.length = 2 then readAt this.hue_ 1 else pure hue_ub
  return TensorOp.RandomColorAdjustOp brightness_lb brightness_ub contrast_lb contrast_ub
    saturation_lb saturation_ub hue_lb hue_ub

def RandomCropOperation.ValidateParamsM : Method RandomCropOperation Bool := do
  let this ← readThis
  if this.size_.isEmpty || this.size_.length > 2 then
    logError ("RandomCrop: size vector has incorrect size: " ++ toString this.size_.length)
    return false
  else if this.padding_.isEmpty || this.padding_.length ≠ 4 then
    logError "RandomCrop: padding vector has incorrect size: padding.size()"
    return false
  else if this.fill_value_.isEmpty || this.fill_value_.length ≠ 3 then
    logError "RandomCrop: fill_value vector has incorrect size: fill_value.size()"
    return false
  else
    return true

def RandomCropOperation.BuildM : Method RandomCropOperation (TensorOp F) := do
  let this ← readThis
  let crop_height ← readAt this.size_ 0
  let pad_top ← readAt this.padding_ 0
  let pad_bottom ← readAt this.padding_ 1
  let pad_left ← readAt this.padding_ 2
  let pad_right ← readAt this.padding_ 3
  let fill_r ← readAt this.fill_value_ 0
  let fill_g ← readAt this.fill_value_ 1
  let fill_b ← readAt this.fill_value_ 2
  let crop_width ← if this.size_.length = 2 then readAt this.size_ 1 else pure 0
  return TensorOp.RandomCropOp crop_height crop_width pad_top pad_bottom pad_left pad_right
    BorderType.kConstant this.pad_if_needed_ fill_r fill_g fill_b

def RandomHorizontalFlipOperation.ValidateParamsM :
    Method (RandomHorizontalFlipOperation F) Bool :=
  return true

def RandomHorizontalFlipOperation.BuildM :
    Method (RandomHorizontalFlipOperation F) (TensorOp F) := do
  let this ← readThis
  return TensorOp.RandomHorizontalFlipOp this.probability_

def RandomRotationOperation.ValidateParamsM : Method (RandomRotationOperation F) Bool := do
  let this ← readThis
  if this.degrees_.isEmpty || this.degrees_.length ≠ 2 then
    logError "RandomRotation: degrees vector has incorrect size: degrees.size()"
    return false
  else if this.center_.isEmpty || this.center_.length ≠ 2 then
    logError "RandomRotation: center vector has incorrect size: center.size()"
    return false
  else if this.fill_value_.isEmpty || this.fill_value_.length ≠ 3 then
    logError "RandomRotation: fill_value vector has incorrect size: fill_value.size()"
    return false
  else
    return true

def RandomRotationOperation.BuildM : Method (RandomRotationOperation F) (TensorOp F) := do
  let this ← readThis
  let start_degree ← readAt this.degrees_ 0
  let end_degree ← readAt this.degrees_ 1
  let center_x ← readAt this.center_ 0
  let center_y ← readAt this.center_ 1
  let fill_r ← readAt this.fill_value_ 0
  let fill_g ← readAt this.fill_value_ 1
  let fill_b ← readAt this.fill_value_ 2
  return TensorOp.RandomRotationOp start_degree end_degree center_x center_y
    this.interpolation_mode_ this.expand_ fill_r fill_g fill_b

def RandomVerticalFlipOperation.ValidateParamsM :
    Method (RandomVerticalFlipOperation F) Bool :=
  return true

def RandomVerticalFlipOperation.BuildM :
    Method (RandomVerticalFlipOperation F) (TensorOp F) := do
  let this ← readThis
  return TensorOp.RandomVerticalFlipOp this.probability_

def ResizeOperation.ValidateParamsM : Method ResizeOperation Bool := do
  let this ← readThis
  if this.size_.isEmpty || this.size_.length > 2 then
    logError ("Resize: size vector has incorrect size: " ++ toString this.size_.length)
    return false
  else
    return true

def ResizeOperation.BuildM : Method ResizeOperation (TensorOp F) := do
  let this ← readThis
  let height ← readAt this.size_ 0
  let width ← if this.size_.length = 2 then readAt this.size_ 1 else pure 0
  return TensorOp.ResizeOp height width this.interpolation_

def UniformAugOperation.ValidateParamsM : Method (UniformAugOperation F) Bool :=
  return true

/-- The virtual call `op->ValidateParams()` in state-passing form: the result, the object
after the call and the log after the call. -/
def TensorOperation.ValidateParamsM :
    TensorOperation F → Log → Option (Bool × TensorOperation F × Log)
  | .CenterCrop op, log =>
    (CenterCropOperation.ValidateParamsM (op, log)).map
      fun r => (r.1, TensorOperation.CenterCrop r.2.1, r.2.2)
  | .CutOut op, log =>
    (CutOutOperation.ValidateParamsM (op, log)).map
      fun r => (r.1, TensorOperation.CutOut r.2.1, r.2.2)
  | .Decode op, log =>
    (DecodeOperation.ValidateParamsM (op, log)).map
      fun r => (r.1, TensorOperation.Decode r.2.1, r.2.2)
  | .Normalize op, log =>
    (NormalizeOperation.ValidateParamsM (op, log)).map
      fun r => (r.1, TensorOperation.Normalize r.2.1, r.2.2)
  | .Pad op, log =>
    (PadOperation.ValidateParamsM (op, log)).map
      fun r => (r.1, TensorOperation.Pad r.2.1, r.2.2)
  | .RandomColorAdjust op, log =>
    (RandomColorAdjustOperation.ValidateParamsM (op, log)).map
      fun r => (r.1, TensorOperation.RandomColorAdjust r.2.1, r.2.2)
  | .RandomCrop op, log =>
    (RandomCropOperation.ValidateParamsM (op, log)).map
      fun r => (r.1, TensorOperation.RandomCrop r.2.1, r.2.2)
  | .RandomHorizontalFlip op, log =>
    (RandomHorizontalFlipOperation.ValidateParamsM (op, log)).map
      fun r => (r.1, TensorOperation.RandomHorizontalFlip r.2.1, r.2.2)
  | .RandomRotation op, log =>
    (RandomRotationOperation.ValidateParamsM (op, log)).map
      fun r => (r.1, TensorOperation.RandomRotation r.2.1, r.2.2)
  | .RandomVerticalFlip op, log =>
    (RandomVerticalFlipOperation.ValidateParamsM (op, log)).map
      fun r => (r.1, TensorOperation.RandomVerticalFlip r.2.1, r.2.2)
  | .Resize op, log =>
    (ResizeOperation.ValidateParamsM (op, log)).map
      fun r => (r.1, TensorOperation.Resize r.2.1, r.2.2)
  | .UniformAug transforms_ num_ops_, log =>
    (UniformAugOperation.ValidateParamsM (⟨transforms_, num_ops_⟩, log)).map
      fun r => (r.1, TensorOperation.UniformAug r.2.1.transforms_ r.2.1.num_ops_, r.2.2)

mutual
/-- The virtual call `op->Build()` in state-passing form: the kernel, the object after the
call and the log after the call. The last case is `UniformAugOperation::Build`, whose
children are the objects its `transforms_` point to. -/
def TensorOperation.BuildM :
    TensorOperation F → Log → Option (TensorOp F × TensorOperation F × Log)
  | .CenterCrop op, log =>
    (CenterCropOperation.BuildM (op, log)).map
      fun r => (r.1, TensorOperation.CenterCrop r.2.1, r.2.2)
  | .CutOut op, log =>
    (CutOutOperation.BuildM (op, log)).map
      fun r => (r.1, TensorOperation.CutOut r.2.1, r.2.2)
  | .Decode op, log =>
    (DecodeOperation.BuildM (op, log)).map
      fun r => (r.1, TensorOperation.Decode r.2.1, r.2.2)
  | .Normalize op, log =>
    (NormalizeOperation.BuildM (op, log)).map
      fun r => (r.1, TensorOperation.Normalize r.2.1, r.2.2)
  | .Pad op, log =>
    (PadOperation.BuildM (op, log)).map
      fun r => (r.1, TensorOperation.Pad r.2.1, r.2.2)
  | .RandomColorAdjust op, log =>
    (RandomColorAdjustOperation.BuildM (op, log)).map
      fun r => (r.1, TensorOperation.RandomColorAdjust r.2.1, r.2.2)
  | .RandomCrop op, log =>
    (RandomCropOperation.BuildM (op, log)).map
      fun r => (r.1, TensorOperation.RandomCrop r.2.1, r.2.2)
  | .RandomHorizontalFlip op, log =>
    (RandomHorizontalFlipOperation.BuildM (op, log)).map
      fun r => (r.1, TensorOperation.RandomHorizontalFlip r.2.1, r.2.2)
  | .RandomRotation op, log =>
    (RandomRotationOperation.BuildM (op, log)).map
      fun r => (r.1, TensorOperation.RandomRotation r.2.1, r.2.2)
  | .RandomVerticalFlip op, log =>
    (RandomVerticalFlipOperation.BuildM (op, log)).map
      fun r => (r.1, TensorOperation.RandomVerticalFlip r.2.1, r.2.2)
  | .Resize op, log =>
    (ResizeOperation.BuildM (op, log)).map
      fun r => (r.1, TensorOperation.Resize r.2.1, r.2.2)
  | .UniformAug transforms_ num_ops_, log =>
    match TensorOperation.BuildEachM transforms_ log with
    | some (tensor_ops, transforms1, log1) =>
      some (TensorOp.UniformAugOp tensor_ops num_ops_,
        TensorOperation.UniformAug transforms1 num_ops_, log1)
    | none => none
/-- The `std::transform` of `UniformAugOperation::Build` in state-passing form: the kernels,
the child objects after the calls and the log after the calls. -/
def TensorOperation.BuildEachM :
    List (Option (TensorOperation F)) → Log →
      Option (List (TensorOp F) × List (Option (TensorOperation F)) × Log)
  | [], log => some ([], [], log)
  | none :: _, _ => none
  | some op :: rest, log =>
    match TensorOperation.BuildM op log with
    | some (tensor_op, op1, log1) =>
      match TensorOperation.BuildEachM rest log1 with
      | some (tensor_ops, rest1, log2) => some (tensor_op :: tensor_ops, some op1 :: rest1, log2)
      | none => none
    | none => none
end

/-- The results of `n` successive calls `op->ValidateParams()`, first call first, each call
made on the object and the log that the call before it left, with the object and the log
after the last call. -/
def validateTimes :
    Nat → TensorOperation F → Log → Option (List Bool × TensorOperation F × Log)
  | 0, op, log => some ([], op, log)
  | n + 1, op, log =>
    match op.ValidateParamsM log with
    | none => none
    | some (ok, op1, log1) =>
      match validateTimes n op1 log1 with
      | none => none
      | some (oks, op2, log2) => some (ok :: oks, op2, log2)

/-- The kernel of a call `op->Build()` made after `n` successive calls
`op->ValidateParams()`, on the object and the log that those calls left. -/
def buildAfterValidate (n : Nat) (op : TensorOperation F) (log : Log) : Option (TensorOp F) :=
  match validateTimes n op log with
  | none => none
  | some (_, op1, log1) => (op1.BuildM log1).map Prod.fst

/-- The kernels of `k` successive calls `op->Build()`, first call first, each call made on
the object and the log that the call before it left, with the object and the log after the
last call. -/
def buildTimes :
    Nat → TensorOperation F → Log → Option (List (TensorOp F) × TensorOperation F × Log)
  | 0, op, log => some ([], op, log)
  | k + 1, op, log =>
    match op.BuildM log with
    | none => none
    | some (tensor_op, op1, log1) =>
      match buildTimes k op1 log1 with
      | none => none
      | some (tensor_ops, op2, log2) => some (tensor_op :: tensor_ops, op2, log2)

/-- A state-passing body `m`, started on the object `op` and the log `log`, returns the
result and the log of `p` and leaves the object as it was. -/
def Agrees {S α : Type} (m : Method S α) (p : Option (α × Log)) (op : S) (log : Log) : Prop :=
  m (op, log) = p.map (fun r => (r.1, op, r.2))

/-- A state-passing computation `x` returns what `y` returns and leaves the state as it
was. -/
def Lifts {S α : Type} (x : Method S α) (y : Option α) : Prop :=
  ∀ state, x state = y.map (fun a => (a, state))

/-! ## Lemmas on `ValidateParams` -/

/-- The test `v.empty()` in terms of `v.size()`. -/
theorem isEmpty_eq_decide_length {α : Type} (v : List α) :
    v.isEmpty = decide (v.length = 0) := by
  cases v <;> simp

theorem CenterCrop_ValidateParams_eq (op : CenterCropOperation) (log : Log) :
    (op.size_.length = 1 ∨ op.size_.length = 2) ∧ op.ValidateParams log = (true, log)
    ∨ ¬ (op.size_.length = 1 ∨ op.size_.length = 2)
      ∧ ∃ msg, op.ValidateParams log = (false, log ++ [msg]) := by
  unfold CenterCropOperation.ValidateParams MS_LOG_ERROR
  split
  · rename_i h
    right
    simp only [isEmpty_eq_decide_length, Bool.or_eq_true, decide_eq_true_eq] at h
    exact ⟨by omega, _, rfl⟩
  · rename_i h
    left
    simp only [isEmpty_eq_decide_length, Bool.or_eq_true, decide_eq_true_eq] at h
    exact ⟨by omega, rfl⟩

theorem CutOut_ValidateParams_eq (op : CutOutOperation) (log : Log) :
    (0 ≤ op.length_ ∧ 0 ≤ op.num_patches_) ∧ op.ValidateParams log = (true, log)
    ∨ ¬ (0 ≤ op.length_ ∧ 0 ≤ op.num_patches_)
      ∧ ∃ msg, op.ValidateParams log = (false, log ++ [msg]) := by
  unfold CutOutOperation.ValidateParams MS_LOG_ERROR
  split_ifs <;>
    simp only [isEmpty_eq_decide_length, Bool.or_eq_true, Bool.and_eq_true, decide_eq_true_eq,
      not_or, ne_eq, decide_not, Bool.not_eq_true', decide_eq_false_iff_not, not_lt,
      Decidable.not_not] at * <;>
    first
      | exact Or.inl ⟨by omega, trivial⟩
      | exact Or.inr ⟨by omega, _, rfl⟩

theorem Normalize_ValidateParams_eq (op : NormalizeOperation F) (log : Log) :
    (op.mean_.length = 3 ∧ op.std_.length = 3) ∧ op.ValidateParams log = (true, log)
    ∨ ¬ (op.mean_.length = 3 ∧ op.std_.length = 3)
      ∧ ∃ msg, op.ValidateParams log = (false, log ++ [msg]) := by
  unfold NormalizeOperation.ValidateParams MS_LOG_ERROR
  split_ifs <;>
    simp only [isEmpty_eq_decide_length, Bool.or_eq_true, Bool.and_eq_true, decide_eq_true_eq,
      not_or, ne_eq, decide_not, Bool.not_eq_true', decide_eq_false_iff_not, not_lt,
      Decidable.not_not] at * <;>
    first
      | exact Or.inl ⟨by omega, trivial⟩
      | exact Or.inr ⟨by omega, _, rfl⟩

theorem Pad_ValidateParams_eq (op : PadOperation) (log : Log) :
    ((op.padding_.length = 1 ∨ op.padding_.length = 2 ∨ op.padding_.length = 4)
        ∧ (op.fill_value_.length = 1 ∨ op.fill_value_.length = 3))
      ∧ op.ValidateParams log = (true, log)
    ∨ ¬ ((op.padding_.length = 1 ∨ op.padding_.length = 2 ∨ op.padding_.length = 4)
        ∧ (op.fill_value_.length = 1 ∨ op.fill_value_.length = 3))
      ∧ ∃ msg, op.ValidateParams log = (false, log ++ [msg]) := by
  unfold PadOperation.ValidateParams MS_LOG_ERROR
  split_ifs <;>
    simp only [isEmpty_eq_decide_length, Bool.or_eq_true, Bool.and_eq_true, decide_eq_true_eq,
      not_or, ne_eq, decide_not, Bool.not_eq_true', decide_eq_false_iff_not, not_lt,
      Decidable.not_not] at * <;>
    first
      | exact Or.inl ⟨by omega, trivial⟩
      | exact Or.inr ⟨by omega, _, rfl⟩

theorem RandomColorAdjust_ValidateParams_eq (op : RandomColorAdjustOperation F)
    (log : Log) :
    ((op.brightness_.length = 1 ∨ op.brightness_.length = 2)
        ∧ (op.contrast_.length = 1 ∨ op.contrast_.length = 2)
        ∧ (op.saturation_.length = 1 ∨ op.saturation_.length = 2)
        ∧ (op.hue_.length = 1 ∨ op.hue_.length = 2))
      ∧ op.ValidateParams log = (true, log)
    ∨ ¬ ((op.brightness_.length = 1 ∨ op.brightness_.length = 2)
        ∧ (op.contrast_.length = 1 ∨ op.contrast_.length = 2)
        ∧ (op.saturation_.length = 1 ∨ op.saturation_.length = 2)
        ∧ (op.hue_.length = 1 ∨ op.hue_.length = 2))
      ∧ ∃ msg, op.ValidateParams log = (false, log ++ [msg]) := by
  unfold RandomColorAdjustOperation.ValidateParams MS_LOG_ERROR
  split_ifs <;>
    simp only [isEmpty_eq_decide_length, Bool.or_eq_true, Bool.and_eq_true, decide_eq_true_eq,
      not_or, ne_eq, decide_not, Bool.not_eq_true', decide_eq_false_iff_not, not_lt,
      Decidable.not_not] at * <;>
    first
      | exact Or.inl ⟨by omega, trivial⟩
      | exact Or.inr ⟨by omega, _, rfl⟩

theorem RandomCrop_ValidateParams_eq (op : RandomCropOperation) (log : Log) :
    ((op.size_.length = 1 ∨ op.size_.length = 2) ∧ op.padding_.length = 4
        ∧ op.fill_value_.length = 3)
      ∧ op.ValidateParams log = (true, log)
    ∨ ¬ ((op.size_.length = 1 ∨ op.size_.length = 2) ∧ op.padding_.length = 4
        ∧ op.fill_value_.length = 3)
      ∧ ∃ msg, op.ValidateParams log = (false, log ++ [msg]) := by
  unfold RandomCropOperation.ValidateParams MS_LOG_ERROR
  split_ifs <;>
    simp only [isEmpty_eq_decide_length, Bool.or_eq_true, Bool.and_eq_true, decide_eq_true_eq,
      not_or, ne_eq, decide_not, Bool.not_eq_true', decide_eq_false_iff_not, not_lt,
      Decidable.not_not] at * <;>
    first
      | exact Or.inl ⟨by omega, trivial⟩
      | exact Or.inr ⟨by omega, _, rfl⟩

theorem RandomRotation_ValidateParams_eq (op : RandomRotationOperation F)
    (log : Log) :
    (op.degrees_.length = 2 ∧ op.center_.length = 2 ∧ op.fill_value_.length = 3)
      ∧ op.ValidateParams log = (true, log)
    ∨ ¬ (op.degrees_.length = 2 ∧ op.center_.length = 2 ∧ op.fill_value_.length = 3)
      ∧ ∃ msg, op.ValidateParams log = (false, log ++ [msg]) := by
  unfold RandomRotationOperation.ValidateParams MS_LOG_ERROR
  split_ifs <;>
    simp only [isEmpty_eq_decide_length, Bool.or_eq_true, Bool.and_eq_true, decide_eq_true_eq,
      not_or, ne_eq, decide_not, Bool.not_eq_true', decide_eq_false_iff_not, not_lt,
      Decidable.not_not] at * <;>
    first
      | exact Or.inl ⟨by omega, trivial⟩
      | exact Or.inr ⟨by omega, _, rfl⟩

theorem Resize_ValidateParams_eq (op : ResizeOperation) (log : Log) :
    (op.size_.length = 1 ∨ op.size_.length = 2) ∧ op.ValidateParams log = (true, log)
    ∨ ¬ (op.size_.length = 1 ∨ op.size_.length = 2)
      ∧ ∃ msg, op.ValidateParams log = (false, log ++ [msg]) := by
  unfold ResizeOperation.ValidateParams MS_LOG_ERROR
  split_ifs <;>
    simp only [isEmpty_eq_decide_length, Bool.or_eq_true, Bool.and_eq_true, decide_eq_true_eq,
      not_or, ne_eq, decide_not, Bool.not_eq_true', decide_eq_false_iff_not, not_lt,
      Decidable.not_not] at * <;>
    first
      | exact Or.inl ⟨by omega, trivial⟩
      | exact Or.inr ⟨by omega, _, rfl⟩


/-! ## Vectors of a known size -/

theorem length_one_shape {α : Type} (v : List α) (h : v.length = 1) : ∃ a, v = [a] := by
  rcases v with _ | ⟨a, _ | ⟨b, t⟩⟩
  · simp at h
  · exact ⟨a, rfl⟩
  · simp at h

theorem length_two_shape {α : Type} (v : List α) (h : v.length = 2) : ∃ a b, v = [a, b] := by
  rcases v with _ | ⟨a, _ | ⟨b, _ | ⟨c, t⟩⟩⟩
  · simp at h
  · simp at h
  · exact ⟨a, b, rfl⟩
  · simp at h

theorem length_three_shape {α : Type} (v : List α) (h : v.length = 3) :
    ∃ a b c, v = [a, b, c] := by
  rcases v with _ | ⟨a, _ | ⟨b, _ | ⟨c, _ | ⟨d, t⟩⟩⟩⟩
  · simp at h
  · simp at h
  · simp at h
  · exact ⟨a, b, c, rfl⟩
  · simp at h

theorem length_four_shape {α : Type} (v : List α) (h : v.length = 4) :
    ∃ a b c d, v = [a, b, c, d] := by
  rcases v with _ | ⟨a, _ | ⟨b, _ | ⟨c, _ | ⟨d, _ | ⟨e, t⟩⟩⟩⟩⟩
  · simp at h
  · simp at h
  · simp at h
  · simp at h
  · exact ⟨a, b, c, d, rfl⟩
  · simp at h

/-! ## The factories against the rules of the table -/

/-- C1: for every operator and every parameter tuple that satisfies the operator's rule of
the data-model table, the factory returns a present descriptor that stores exactly that
tuple (and writes nothing to the log), and `ValidateParams` on the descriptor returns
true. -/
theorem factory_present_of_rules (P : TensorOperation F) (log : Log)
    (h : Spec.satisfiesRules P) :
    factory P log = (some P, log) ∧ P.ValidateParams log = (true, log) := by
  cases P with
  | CenterCrop op =>
    rcases CenterCrop_ValidateParams_eq op log with ⟨_, hv⟩ | ⟨hn, _⟩
    · simp [factory, CenterCrop, TensorOperation.ValidateParams, hv]
    · exact absurd h hn
  | CutOut op =>
    rcases CutOut_ValidateParams_eq op log with ⟨_, hv⟩ | ⟨hn, _⟩
    · simp [factory, CutOut, TensorOperation.ValidateParams, hv]
    · exact absurd h hn
  | Decode op =>
    simp [factory, Decode, TensorOperation.ValidateParams, DecodeOperation.ValidateParams]
  | Normalize op =>
    rcases Normalize_ValidateParams_eq op log with ⟨_, hv⟩ | ⟨hn, _⟩
    · simp [factory, Normalize, TensorOperation.ValidateParams, hv]
    · exact absurd h hn
  | Pad op =>
    rcases Pad_ValidateParams_eq op log with ⟨_, hv⟩ | ⟨hn, _⟩
    · simp [factory, Pad, TensorOperation.ValidateParams, hv]
    · exact absurd h hn
  | RandomColorAdjust op =>
    rcases RandomColorAdjust_ValidateParams_eq op log with ⟨_, hv⟩ | ⟨hn, _⟩
    · simp [factory, RandomColorAdjust, TensorOperation.ValidateParams, hv]
    · exact absurd h hn
  | RandomCrop op =>
    rcases RandomCrop_ValidateParams_eq op log with ⟨_, hv⟩ | ⟨hn, _⟩
    · simp [factory, RandomCrop, TensorOperation.ValidateParams, hv]
    · exact absurd h hn
  | RandomHorizontalFlip op =>
    simp [factory, RandomHorizontalFlip, TensorOperation.ValidateParams,
      RandomHorizontalFlipOperation.ValidateParams]
  | RandomRotation op =>
    rcases RandomRotation_ValidateParams_eq op log with ⟨_, hv⟩ | ⟨hn, _⟩
    · simp [factory, RandomRotation, TensorOperation.ValidateParams, hv]
    · exact absurd h hn
  | RandomVerticalFlip op =>
    simp [factory, RandomVerticalFlip, TensorOperation.ValidateParams,
      RandomVerticalFlipOperation.ValidateParams]
  | Resize op =>
    rcases Resize_ValidateParams_eq op log with ⟨_, hv⟩ | ⟨hn, _⟩
    · simp [factory, Resize, TensorOperation.ValidateParams, hv]
    · exact absurd h hn
  | UniformAug transforms_ num_ops_ =>
    simp [factory, UniformAugment, TensorOperation.ValidateParams,
      UniformAugOperation.ValidateParams]

/-- Witness of C1 at `Pad([1,2,3,4], [0], CONSTANT)`, at `CutOut(0, 0)` and at
`Normalize` with three means and three deviations. -/
theorem factory_present_of_rules_witness :
    (Spec.satisfiesRules (TensorOperation.Pad ⟨[1, 2, 3, 4], [0], .kConstant⟩ : TensorOperation ℚ)
      ∧ factory (TensorOperation.Pad ⟨[1, 2, 3, 4], [0], .kConstant⟩ : TensorOperation ℚ) []
          = (some (TensorOperation.Pad ⟨[1, 2, 3, 4], [0], .kConstant⟩), [])
      ∧ TensorOperation.ValidateParams
          (TensorOperation.Pad ⟨[1, 2, 3, 4], [0], .kConstant⟩ : TensorOperation ℚ) []
          = (true, []))
    ∧ (Spec.satisfiesRules (TensorOperation.CutOut ⟨0, 0⟩ : TensorOperation ℚ)
      ∧ factory (TensorOperation.CutOut ⟨0, 0⟩ : TensorOperation ℚ) ["earlier line"]
          = (some (TensorOperation.CutOut ⟨0, 0⟩), ["earlier line"])
      ∧ TensorOperation.ValidateParams (TensorOperation.CutOut ⟨0, 0⟩ : TensorOperation ℚ)
          ["earlier line"] = (true, ["earlier line"]))
    ∧ (Spec.satisfiesRules
        (TensorOperation.Normalize ⟨[485/1000, 456/1000, 406/1000], [229/1000, 224/1000, 225/1000]⟩ :
          TensorOperation ℚ)
      ∧ factory
          (TensorOperation.Normalize ⟨[485/1000, 456/1000, 406/1000], [229/1000, 224/1000, 225/1000]⟩ :
            TensorOperation ℚ) []
          = (some (TensorOperation.Normalize
              ⟨[485/1000, 456/1000, 406/1000], [229/1000, 224/1000, 225/1000]⟩), [])
      ∧ TensorOperation.ValidateParams
          (TensorOperation.Normalize ⟨[485/1000, 456/1000, 406/1000], [229/1000, 224/1000, 225/1000]⟩ :
            TensorOperation ℚ) []
          = (true, [])) :=
  ⟨⟨by decide, factory_present_of_rules _ _ (by decide)⟩,
   ⟨by decide, factory_present_of_rules _ _ (by decide)⟩,
   ⟨by decide, factory_present_of_rules _ _ (by decide)⟩⟩

/-- C2: for every operator and every parameter tuple that violates a rule of the data-model
table, the factory returns an absent descriptor and at least one line has been added to
the log. -/
theorem factory_absent_of_violation (P : TensorOperation F) (log : Log)
    (h : ¬ Spec.satisfiesRules P) :
    (factory P log).1 = none
      ∧ ∃ line lines, (factory P log).2 = log ++ line :: lines := by
  cases P with
  | CenterCrop op =>
    rcases CenterCrop_ValidateParams_eq op log with ⟨hr, _⟩ | ⟨_, msg, hv⟩
    · exact absurd hr h
    · exact ⟨by simp [factory, CenterCrop, hv], msg, [], by simp [factory, CenterCrop, hv]⟩
  | CutOut op =>
    rcases CutOut_ValidateParams_eq op log with ⟨hr, _⟩ | ⟨_, msg, hv⟩
    · exact absurd hr h
    · exact ⟨by simp [factory, CutOut, hv], msg, [], by simp [factory, CutOut, hv]⟩
  | Decode op => exact absurd trivial h
  | Normalize op =>
    rcases Normalize_ValidateParams_eq op log with ⟨hr, _⟩ | ⟨_, msg, hv⟩
    · exact absurd hr h
    · exact ⟨by simp [factory, Normalize, hv], msg, [], by simp [factory, Normalize, hv]⟩
  | Pad op =>
    rcases Pad_ValidateParams_eq op log with ⟨hr, _⟩ | ⟨_, msg, hv⟩
    · exact absurd hr h
    · exact ⟨by simp [factory, Pad, hv], msg, [], by simp [factory, Pad, hv]⟩
  | RandomColorAdjust op =>
    rcases RandomColorAdjust_ValidateParams_eq op log with ⟨hr, _⟩ | ⟨_, msg, hv⟩
    · exact absurd hr h
    · exact ⟨by simp [factory, RandomColorAdjust, hv], msg, [],
        by simp [factory, RandomColorAdjust, hv]⟩
  | RandomCrop op =>
    rcases RandomCrop_ValidateParams_eq op log with ⟨hr, _⟩ | ⟨_, msg, hv⟩
    · exact absurd hr h
    · exact ⟨by simp [factory, RandomCrop, hv], msg, [], by simp [factory, RandomCrop, hv]⟩
  | RandomHorizontalFlip op => exact absurd trivial h
  | RandomRotation op =>
    rcases RandomRotation_ValidateParams_eq op log with ⟨hr, _⟩ | ⟨_, msg, hv⟩
    · exact absurd hr h
    · exact ⟨by simp [factory, RandomRotation, hv], msg, [],
        by simp [factory, RandomRotation, hv]⟩
  | RandomVerticalFlip op => exact absurd trivial h
  | Resize op =>
    rcases Resize_ValidateParams_eq op log with ⟨hr, _⟩ | ⟨_, msg, hv⟩
    · exact absurd hr h
    · exact ⟨by simp [factory, Resize, hv], msg, [], by simp [factory, Resize, hv]⟩
  | UniformAug transforms_ num_ops_ => exact absurd trivial h

/-- Witness of C2 at `Pad([1,2,3])`, at `Normalize` with a mean of two values and at
`CutOut(-1, 0)`. -/
theorem factory_absent_of_violation_witness :
    (¬ Spec.satisfiesRules
        (TensorOperation.Pad ⟨[1, 2, 3], [0], .kConstant⟩ : TensorOperation ℚ)
      ∧ (factory (TensorOperation.Pad ⟨[1, 2, 3], [0], .kConstant⟩ : TensorOperation ℚ) []).1
          = none
      ∧ ∃ line lines,
          (factory (TensorOperation.Pad ⟨[1, 2, 3], [0], .kConstant⟩ : TensorOperation ℚ) []).2
            = [] ++ line :: lines)
    ∧ (¬ Spec.satisfiesRules
        (TensorOperation.Normalize ⟨[1/2, 1/2], [1, 1, 1]⟩ : TensorOperation ℚ)
      ∧ (factory (TensorOperation.Normalize ⟨[1/2, 1/2], [1, 1, 1]⟩ : TensorOperation ℚ) []).1
          = none
      ∧ ∃ line lines,
          (factory (TensorOperation.Normalize ⟨[1/2, 1/2], [1, 1, 1]⟩ : TensorOperation ℚ) []).2
            = [] ++ line :: lines)
    ∧ (¬ Spec.satisfiesRules (TensorOperation.CutOut ⟨-1, 0⟩ : TensorOperation ℚ)
      ∧ (factory (TensorOperation.CutOut ⟨-1, 0⟩ : TensorOperation ℚ) []).1 = none
      ∧ ∃ line lines,
          (factory (TensorOperation.CutOut ⟨-1, 0⟩ : TensorOperation ℚ) []).2
            = [] ++ line :: lines) :=
  ⟨⟨by decide, factory_absent_of_violation _ _ (by decide)⟩,
   ⟨by decide, factory_absent_of_violation _ _ (by decide)⟩,
   ⟨by decide, factory_absent_of_violation _ _ (by decide)⟩⟩

/-! ## The kernel arguments derived by `Build` -/

/-- C3: for a Pad descriptor with padding of length 1, 2 or 4 and fill of length 1 or 3,
`Build` passes the kernel `(top, bottom, left, right, mode, r, g, b)`, where one padding value
is used for all four sides, two values are (left = right, top = bottom), four values are
(left, top, right, bottom); the mode is the stored one; one fill value is used for the three
channels and three fill values are (r, g, b). The log is left as it was. -/
theorem Pad_Build_args (op : PadOperation) (log : Log)
    (hp : op.padding_.length = 1 ∨ op.padding_.length = 2 ∨ op.padding_.length = 4)
    (hf : op.fill_value_.length = 1 ∨ op.fill_value_.length = 3) :
    ∃ top bottom left right r g b,
      (op.Build log : Option (TensorOp F × Log))
        = some (TensorOp.PadOp top bottom left right op.padding_mode_ r g b, log)
      ∧ (op.padding_.length = 1 →
          op.padding_[0]? = some top ∧ op.padding_[0]? = some bottom
            ∧ op.padding_[0]? = some left ∧ op.padding_[0]? = some right)
      ∧ (op.padding_.length = 2 →
          op.padding_[0]? = some left ∧ op.padding_[0]? = some right
            ∧ op.padding_[1]? = some top ∧ op.padding_[1]? = some bottom)
      ∧ (op.padding_.length = 4 →
          op.padding_[0]? = some left ∧ op.padding_[1]? = some top
            ∧ op.padding_[2]? = some right ∧ op.padding_[3]? = some bottom)
      ∧ (op.fill_value_.length = 1 →
          op.fill_value_[0]? = some r ∧ op.fill_value_[0]? = some g
            ∧ op.fill_value_[0]? = some b)
      ∧ (op.fill_value_.length = 3 →
          op.fill_value_[0]? = some r ∧ op.fill_value_[1]? = some g
            ∧ op.fill_value_[2]? = some b) := by
  obtain ⟨padding, fill, mode⟩ := op
  simp only at hp hf ⊢
  rcases hf with hf | hf
  · obtain ⟨v, rfl⟩ := length_one_shape fill hf
    rcases hp with hp | hp | hp
    · obtain ⟨a, rfl⟩ := length_one_shape padding hp
      exact ⟨a, a, a, a, v, v, v, rfl, by simp⟩
    · obtain ⟨a, b, rfl⟩ := length_two_shape padding hp
      exact ⟨b, b, a, a, v, v, v, rfl, by simp⟩
    · obtain ⟨a, b, c, d, rfl⟩ := length_four_shape padding hp
      exact ⟨b, d, a, c, v, v, v, rfl, by simp⟩
  · obtain ⟨r, g, b', rfl⟩ := length_three_shape fill hf
    rcases hp with hp | hp | hp
    · obtain ⟨a, rfl⟩ := length_one_shape padding hp
      exact ⟨a, a, a, a, r, g, b', rfl, by simp⟩
    · obtain ⟨a, b, rfl⟩ := length_two_shape padding hp
      exact ⟨b, b, a, a, r, g, b', rfl, by simp⟩
    · obtain ⟨a, b, c, d, rfl⟩ := length_four_shape padding hp
      exact ⟨b, d, a, c, r, g, b', rfl, by simp⟩

/-- Witness of C3 at the three Pad scenarios: padding `[2]` with fill `[128]`, padding `[1,2]`
with fill `[10,20,30]` and REFLECT, padding `[1,2,3,4]` with fill `[0]`. -/
theorem Pad_Build_args_witness :
    (PadOperation.Build ⟨[2], [128], .kConstant⟩ [] : Option (TensorOp ℚ × Log))
        = some (TensorOp.PadOp 2 2 2 2 .kConstant 128 128 128, [])
    ∧ (PadOperation.Build ⟨[1, 2], [10, 20, 30], .kReflect⟩ [] : Option (TensorOp ℚ × Log))
        = some (TensorOp.PadOp 2 2 1 1 .kReflect 10 20 30, [])
    ∧ (PadOperation.Build ⟨[1, 2, 3, 4], [0], .kConstant⟩ [] : Option (TensorOp ℚ × Log))
        = some (TensorOp.PadOp 2 4 1 3 .kConstant 0 0 0, []) := by
  refine ⟨?_, ?_, ?_⟩
  · obtain ⟨top, bottom, left, right, r, g, b, hB, h1, _, _, hf1, _⟩ :=
      Pad_Build_args (F := ℚ) ⟨[2], [128], .kConstant⟩ [] (by decide) (by decide)
    have h := h1 rfl
    have hf := hf1 rfl
    simp only [List.getElem?_cons_zero, Option.some.injEq] at h hf
    obtain ⟨rfl, rfl, rfl, rfl⟩ := h
    obtain ⟨rfl, rfl, rfl⟩ := hf
    exact hB
  · obtain ⟨top, bottom, left, right, r, g, b, hB, _, h2, _, _, hf3⟩ :=
      Pad_Build_args (F := ℚ) ⟨[1, 2], [10, 20, 30], .kReflect⟩ [] (by decide) (by decide)
    have h := h2 rfl
    have hf := hf3 rfl
    simp only [List.getElem?_cons_zero, List.getElem?_cons_succ, Option.some.injEq] at h hf
    obtain ⟨rfl, rfl, rfl, rfl⟩ := h
    obtain ⟨rfl, rfl, rfl⟩ := hf
    exact hB
  · obtain ⟨top, bottom, left, right, r, g, b, hB, _, _, h4, hf1, _⟩ :=
      Pad_Build_args (F := ℚ) ⟨[1, 2, 3, 4], [0], .kConstant⟩ [] (by decide) (by decide)
    have h := h4 rfl
    have hf := hf1 rfl
    simp only [List.getElem?_cons_zero, List.getElem?_cons_succ, Option.some.injEq] at h hf
    obtain ⟨rfl, rfl, rfl, rfl⟩ := h
    obtain ⟨rfl, rfl, rfl⟩ := hf
    exact hB

/-- C4: the size rule. For a size vector of length 1 or 2, `CenterCropOperation::Build`
passes the kernel `(size[0], 0)` when the length is 1 and `(size[0], size[1])` when it is 2,
and `ResizeOperation::Build` passes the same two values followed by the stored
interpolation mode. -/
theorem size_to_height_width (size : List Int) (interpolation : InterpolationMode) (log : Log)
    (hs : size.length = 1 ∨ size.length = 2) :
    ∃ h w,
      (CenterCropOperation.Build ⟨size⟩ log : Option (TensorOp F × Log))
        = some (TensorOp.CenterCropOp h w, log)
      ∧ (ResizeOperation.Build ⟨size, interpolation⟩ log : Option (TensorOp F × Log))
        = some (TensorOp.ResizeOp h w interpolation, log)
      ∧ size[0]? = some h
      ∧ (size.length = 1 → w = 0)
      ∧ (size.length = 2 → size[1]? = some w) := by
  rcases hs with hs | hs
  · obtain ⟨a, rfl⟩ := length_one_shape size hs
    exact ⟨a, 0, rfl, rfl, by simp⟩
  · obtain ⟨a, b, rfl⟩ := length_two_shape size hs
    exact ⟨a, b, rfl, rfl, by simp⟩

/-- Witness of C4: `CenterCrop([7])` and `CenterCrop([7,0])` both give the kernel `(7,0)`,
`CenterCrop([7,9])` gives `(7,9)`, and `Resize([7], mode)` gives `(7,0,mode)`. -/
theorem size_to_height_width_witness :
    (CenterCropOperation.Build ⟨[7]⟩ [] : Option (TensorOp ℚ × Log))
        = some (TensorOp.CenterCropOp 7 0, [])
    ∧ (CenterCropOperation.Build ⟨[7, 0]⟩ [] : Option (TensorOp ℚ × Log))
        = some (TensorOp.CenterCropOp 7 0, [])
    ∧ (CenterCropOperation.Build ⟨[7, 9]⟩ [] : Option (TensorOp ℚ × Log))
        = some (TensorOp.CenterCropOp 7 9, [])
    ∧ (ResizeOperation.Build ⟨[7], .kNearestNeighbour⟩ [] : Option (TensorOp ℚ × Log))
        = some (TensorOp.ResizeOp 7 0 .kNearestNeighbour, []) := by
  refine ⟨?_, ?_, ?_, ?_⟩
  · obtain ⟨h, w, hC, _, h0, h1, _⟩ :=
      size_to_height_width (F := ℚ) [7] .kLinear [] (by decide)
    have hw := h1 rfl
    simp only [List.getElem?_cons_zero, Option.some.injEq] at h0
    subst hw h0
    exact hC
  · obtain ⟨h, w, hC, _, h0, _, h2⟩ :=
      size_to_height_width (F := ℚ) [7, 0] .kLinear [] (by decide)
    have hw := h2 rfl
    simp only [List.getElem?_cons_zero, List.getElem?_cons_succ, Option.some.injEq] at h0 hw
    subst hw h0
    exact hC
  · obtain ⟨h, w, hC, _, h0, _, h2⟩ :=
      size_to_height_width (F := ℚ) [7, 9] .kLinear [] (by decide)
    have hw := h2 rfl
    simp only [List.getElem?_cons_zero, List.getElem?_cons_succ, Option.some.injEq] at h0 hw
    subst hw h0
    exact hC
  · obtain ⟨h, w, _, hR, h0, h1, _⟩ :=
      size_to_height_width (F := ℚ) [7] .kNearestNeighbour [] (by decide)
    have hw := h1 rfl
    simp only [List.getElem?_cons_zero, Option.some.injEq] at h0
    subst hw h0
    exact hR

/-- C5: for a RandomCrop descriptor with size of length 1 or 2, padding of length 4 and
fill of length 3, `Build` passes the kernel `(crop_h, crop_w, top, bottom, left, right,
border, pad_if_needed, r, g, b)` with `crop_h = size[0]`, `crop_w = size[1]` for two sizes
and 0 for one, the sides `padding[0..3]` in that order, the border type CONSTANT, the stored
`pad_if_needed` and the fill `fill[0..2]`. -/
theorem RandomCrop_Build_args (op : RandomCropOperation) (log : Log)
    (hs : op.size_.length = 1 ∨ op.size_.length = 2) (hp : op.padding_.length = 4)
    (hf : op.fill_value_.length = 3) :
    ∃ crop_h crop_w top bottom left right r g b,
      (op.Build log : Option (TensorOp F × Log))
        = some (TensorOp.RandomCropOp crop_h crop_w top bottom left right BorderType.kConstant
            op.pad_if_needed_ r g b, log)
      ∧ op.size_[0]? = some crop_h
      ∧ (op.size_.length = 1 → crop_w = 0)
      ∧ (op.size_.length = 2 → op.size_[1]? = some crop_w)
      ∧ op.padding_[0]? = some top ∧ op.padding_[1]? = some bottom
      ∧ op.padding_[2]? = some left ∧ op.padding_[3]? = some right
      ∧ op.fill_value_[0]? = some r ∧ op.fill_value_[1]? = some g
      ∧ op.fill_value_[2]? = some b := by
  obtain ⟨size, padding, pad_if_needed, fill⟩ := op
  simp only at hs hp hf ⊢
  obtain ⟨t, b, l, r, rfl⟩ := length_four_shape padding hp
  obtain ⟨fr, fg, fb, rfl⟩ := length_three_shape fill hf
  rcases hs with hs | hs
  · obtain ⟨h, rfl⟩ := length_one_shape size hs
    exact ⟨h, 0, t, b, l, r, fr, fg, fb, rfl, by simp⟩
  · obtain ⟨h, w, rfl⟩ := length_two_shape size hs
    exact ⟨h, w, t, b, l, r, fr, fg, fb, rfl, by simp⟩

/-- Witness of C5 at `RandomCrop([5], [1,2,3,4], true, [10,20,30])`. -/
theorem RandomCrop_Build_args_witness :
    (RandomCropOperation.Build ⟨[5], [1, 2, 3, 4], true, [10, 20, 30]⟩ [] :
        Option (TensorOp ℚ × Log))
      = some (TensorOp.RandomCropOp 5 0 1 2 3 4 .kConstant true 10 20 30, []) := by
  obtain ⟨crop_h, crop_w, top, bottom, left, right, r, g, b, hB, h0, h1, _, ht, hb, hl, hr,
      hfr, hfg, hfb⟩ :=
    RandomCrop_Build_args (F := ℚ) ⟨[5], [1, 2, 3, 4], true, [10, 20, 30]⟩ []
      (by decide) (by decide) (by decide)
  have hw := h1 rfl
  simp only [List.getElem?_cons_zero, List.getElem?_cons_succ, Option.some.injEq]
    at h0 ht hb hl hr hfr hfg hfb
  subst hw h0 ht hb hl hr hfr hfg hfb
  exact hB

/-- C6: for a RandomColorAdjust descriptor whose four vectors each have length 1 or 2,
`Build` passes the kernel the eight scalars (brightness, contrast, saturation, hue; lower
bound then upper bound), each pair being `(v[0], v[0])` for one value and `(v[0], v[1])`
for two, each derived from its own vector. -/
theorem RandomColorAdjust_Build_args (op : RandomColorAdjustOperation F) (log : Log)
    (hb : op.brightness_.length = 1 ∨ op.brightness_.length = 2)
    (hc : op.contrast_.length = 1 ∨ op.contrast_.length = 2)
    (hs : op.saturation_.length = 1 ∨ op.saturation_.length = 2)
    (hh : op.hue_.length = 1 ∨ op.hue_.length = 2) :
    ∃ brightness_lb brightness_ub contrast_lb contrast_ub saturation_lb saturation_ub
        hue_lb hue_ub,
      op.Build log
        = some (TensorOp.RandomColorAdjustOp brightness_lb brightness_ub contrast_lb
            contrast_ub saturation_lb saturation_ub hue_lb hue_ub, log)
      ∧ Spec.broadcastPair op.brightness_ brightness_lb brightness_ub
      ∧ Spec.broadcastPair op.contrast_ contrast_lb contrast_ub
      ∧ Spec.broadcastPair op.saturation_ saturation_lb saturation_ub
      ∧ Spec.broadcastPair op.hue_ hue_lb hue_ub := by
  obtain ⟨brightness, contrast, saturation, hue⟩ := op
  simp only at hb hc hs hh ⊢
  have shape : ∀ v : List F, v.length = 1 ∨ v.length = 2 →
      (∃ a, v = [a]) ∨ (∃ a b, v = [a, b]) := fun v hv =>
    hv.elim (fun h => Or.inl (length_one_shape v h)) (fun h => Or.inr (length_two_shape v h))
  rcases shape brightness hb with ⟨b0, rfl⟩ | ⟨b0, b1, rfl⟩ <;>
    rcases shape contrast hc with ⟨c0, rfl⟩ | ⟨c0, c1, rfl⟩ <;>
    rcases shape saturation hs with ⟨s0, rfl⟩ | ⟨s0, s1, rfl⟩ <;>
    rcases shape hue hh with ⟨h0, rfl⟩ | ⟨h0, h1, rfl⟩ <;>
    exact ⟨_, _, _, _, _, _, _, _, rfl, by simp [Spec.broadcastPair]⟩

/-- Witness of C6: brightness `[0.5]`, contrast `[0.8, 1.2]`, saturation `[1.0]`, hue `[0.0]`
give the kernel `(0.5, 0.5, 0.8, 1.2, 1.0, 1.0, 0.0, 0.0)`. -/
theorem RandomColorAdjust_Build_args_witness :
    RandomColorAdjustOperation.Build (⟨[0.5], [0.8, 1.2], [1.0], [0.0]⟩ :
        RandomColorAdjustOperation ℚ) []
      = some (TensorOp.RandomColorAdjustOp 0.5 0.5 0.8 1.2 1.0 1.0 0.0 0.0, []) := by
  obtain ⟨blb, bub, clb, cub, slb, sub, hlb, hub, hB, ⟨hb, _⟩, ⟨_, hc⟩, ⟨hs, _⟩, ⟨hh, _⟩⟩ :=
    RandomColorAdjust_Build_args (⟨[0.5], [0.8, 1.2], [1.0], [0.0]⟩ :
      RandomColorAdjustOperation ℚ) [] (by decide) (by decide) (by decide) (by decide)
  have hb1 := hb rfl
  have hc1 := hc rfl
  have hs1 := hs rfl
  have hh1 := hh rfl
  simp only [List.getElem?_cons_zero, List.getElem?_cons_succ, Option.some.injEq]
    at hb1 hc1 hs1 hh1
  obtain ⟨rfl, rfl⟩ := hb1
  obtain ⟨rfl, rfl⟩ := hc1
  obtain ⟨rfl, rfl⟩ := hs1
  obtain ⟨rfl, rfl⟩ := hh1
  exact hB

/-- C9: for mean and std of length exactly 3 the Normalize factory returns a present
descriptor whose `Build` passes the kernel `(mean[0], mean[1], mean[2], std[0], std[1],
std[2])`; when the length of mean or of std is not 3 the factory returns absent. -/
theorem Normalize_factory_Build (mean std : List F) (log : Log) :
    (mean.length = 3 ∧ std.length = 3 →
      ∃ d m0 m1 m2 s0 s1 s2,
        Normalize mean std log = (some d, log)
        ∧ d.Build log = some (TensorOp.NormalizeOp m0 m1 m2 s0 s1 s2, log)
        ∧ mean[0]? = some m0 ∧ mean[1]? = some m1 ∧ mean[2]? = some m2
        ∧ std[0]? = some s0 ∧ std[1]? = some s1 ∧ std[2]? = some s2)
    ∧ (mean.length ≠ 3 ∨ std.length ≠ 3 → (Normalize mean std log).1 = none) := by
  constructor
  · rintro ⟨hm, hs⟩
    obtain ⟨m0, m1, m2, rfl⟩ := length_three_shape mean hm
    obtain ⟨s0, s1, s2, rfl⟩ := length_three_shape std hs
    exact ⟨⟨[m0, m1, m2], [s0, s1, s2]⟩, m0, m1, m2, s0, s1, s2, rfl, rfl, by simp⟩
  · intro h
    rcases Normalize_ValidateParams_eq ⟨mean, std⟩ log with ⟨hr, _⟩ | ⟨_, msg, hv⟩
    · exact absurd hr (by simp only at hr ⊢; omega)
    · simp [Normalize, hv]

/-- Witness of C9: mean `[0.485, 0.456, 0.406]` and std `[0.229, 0.224, 0.225]` reach the
kernel as those six scalars in that order, and mean `[0.5, 0.5]` gives an absent
descriptor. -/
theorem Normalize_factory_Build_witness :
    (Normalize ([0.485, 0.456, 0.406] : List ℚ) [0.229, 0.224, 0.225] []
        = (some ⟨[0.485, 0.456, 0.406], [0.229, 0.224, 0.225]⟩, [])
      ∧ NormalizeOperation.Build (⟨[0.485, 0.456, 0.406], [0.229, 0.224, 0.225]⟩ :
          NormalizeOperation ℚ) []
        = some (TensorOp.NormalizeOp 0.485 0.456 0.406 0.229 0.224 0.225, []))
    ∧ (Normalize ([0.5, 0.5] : List ℚ) [0.229, 0.224, 0.225] []).1 = none := by
  refine ⟨?_, (Normalize_factory_Build ([0.5, 0.5] : List ℚ) [0.229, 0.224, 0.225] []).2
    (Or.inl (by decide))⟩
  obtain ⟨d, m0, m1, m2, s0, s1, s2, hN, hB, h0, h1, h2, h3, h4, h5⟩ :=
    (Normalize_factory_Build ([0.485, 0.456, 0.406] : List ℚ) [0.229, 0.224, 0.225] []).1
      ⟨by decide, by decide⟩
  simp only [List.getElem?_cons_zero, List.getElem?_cons_succ, Option.some.injEq]
    at h0 h1 h2 h3 h4 h5
  subst h0 h1 h2 h3 h4 h5
  have hd : d = ⟨[0.485, 0.456, 0.406], [0.229, 0.224, 0.225]⟩ := by
    have h : Normalize ([0.485, 0.456, 0.406] : List ℚ) [0.229, 0.224, 0.225] []
        = (some ⟨[0.485, 0.456, 0.406], [0.229, 0.224, 0.225]⟩, []) := rfl
    rw [hN] at h
    simpa using h
  subst hd
  exact ⟨hN, hB⟩

/-- C10: for a RandomRotation descriptor with degrees of length 2, center of length 2 and
fill of length 3, `Build` passes the kernel `(degrees[0], degrees[1], center[0], center[1],
interpolation mode, expand, fill[0], fill[1], fill[2])` in that order, the mode and the
flag being the stored ones. -/
theorem RandomRotation_Build_args (op : RandomRotationOperation F) (log : Log)
    (hd : op.degrees_.length = 2) (hc : op.center_.length = 2)
    (hf : op.fill_value_.length = 3) :
    ∃ d0 d1 c0 c1 r g b,
      op.Build log
        = some (TensorOp.RandomRotationOp d0 d1 c0 c1 op.interpolation_mode_ op.expand_
            r g b, log)
      ∧ op.degrees_[0]? = some d0 ∧ op.degrees_[1]? = some d1
      ∧ op.center_[0]? = some c0 ∧ op.center_[1]? = some c1
      ∧ op.fill_value_[0]? = some r ∧ op.fill_value_[1]? = some g
      ∧ op.fill_value_[2]? = some b := by
  obtain ⟨degrees, mode, expand, center, fill⟩ := op
  simp only at hd hc hf ⊢
  obtain ⟨d0, d1, rfl⟩ := length_two_shape degrees hd
  obtain ⟨c0, c1, rfl⟩ := length_two_shape center hc
  obtain ⟨r, g, b, rfl⟩ := length_three_shape fill hf
  exact ⟨d0, d1, c0, c1, r, g, b, rfl, by simp⟩

/-- Witness of C10 at `RandomRotation([-30, 30], NEAREST, true, [16, 12], [1, 2, 3])`. -/
theorem RandomRotation_Build_args_witness :
    RandomRotationOperation.Build (⟨[-30, 30], .kNearestNeighbour, true, [16, 12], [1, 2, 3]⟩ :
        RandomRotationOperation ℚ) []
      = some (TensorOp.RandomRotationOp (-30) 30 16 12 .kNearestNeighbour true 1 2 3, []) := by
  obtain ⟨d0, d1, c0, c1, r, g, b, hB, h0, h1, h2, h3, h4, h5, h6⟩ :=
    RandomRotation_Build_args (⟨[-30, 30], .kNearestNeighbour, true, [16, 12], [1, 2, 3]⟩ :
      RandomRotationOperation ℚ) [] (by decide) (by decide) (by decide)
  simp only [List.getElem?_cons_zero, List.getElem?_cons_succ, Option.some.injEq]
    at h0 h1 h2 h3 h4 h5 h6
  subst h0 h1 h2 h3 h4 h5 h6
  exact hB

/-! ## `Build` writes nothing to the log -/

theorem keepsLog_some {α : Type} (r : α) (log : Log) : KeepsLog (some (r, log)) log := by
  intro r1 log1 h
  simp only [Option.some.injEq, Prod.mk.injEq] at h
  exact h.2.symm

theorem keepsLog_bind {α β : Type} (x : Option α) (f : α → Option (β × Log)) (log : Log)
    (hf : ∀ a, KeepsLog (f a) log) : KeepsLog (x.bind f) log := by
  intro r log1 h
  cases x with
  | none => simp at h
  | some a => exact hf a r log1 h

theorem keepsLog_ite {α : Type} (c : Prop) [Decidable c] (a b : Option (α × Log)) (log : Log)
    (ha : KeepsLog a log) (hb : KeepsLog b log) : KeepsLog (if c then a else b) log := by
  split
  · exact ha
  · exact hb

theorem CenterCrop_Build_keepsLog (op : CenterCropOperation) (log : Log) :
    KeepsLog (op.Build log : Option (TensorOp F × Log)) log := by
  unfold CenterCropOperation.Build
  repeat' (first
    | exact keepsLog_some _ _
    | refine keepsLog_bind _ _ _ fun _ => ?_
    | refine keepsLog_ite _ _ _ _ ?_ ?_)

theorem Normalize_Build_keepsLog (op : NormalizeOperation F) (log : Log) :
    KeepsLog (op.Build log) log := by
  unfold NormalizeOperation.Build
  repeat' (first
    | exact keepsLog_some _ _
    | refine keepsLog_bind _ _ _ fun _ => ?_)

theorem Pad_Build_keepsLog (op : PadOperation) (log : Log) :
    KeepsLog (op.Build log : Option (TensorOp F × Log)) log := by
  unfold PadOperation.Build
  repeat' (first
    | exact keepsLog_some _ _
    | refine keepsLog_bind _ _ _ fun _ => ?_
    | refine keepsLog_ite _ _ _ _ ?_ ?_)

theorem RandomColorAdjust_Build_keepsLog (op : RandomColorAdjustOperation F) (log : Log) :
    KeepsLog (op.Build log) log := by
  unfold RandomColorAdjustOperation.Build
  repeat' (first
    | exact keepsLog_some _ _
    | refine keepsLog_bind _ _ _ fun _ => ?_
    | refine keepsLog_ite _ _ _ _ ?_ ?_)

theorem RandomCrop_Build_keepsLog (op : RandomCropOperation) (log : Log) :
    KeepsLog (op.Build log : Option (TensorOp F × Log)) log := by
  unfold RandomCropOperation.Build
  repeat' (first
    | exact keepsLog_some _ _
    | refine keepsLog_bind _ _ _ fun _ => ?_
    | refine keepsLog_ite _ _ _ _ ?_ ?_)

theorem RandomRotation_Build_keepsLog (op : RandomRotationOperation F) (log : Log) :
    KeepsLog (op.Build log) log := by
  unfold RandomRotationOperation.Build
  repeat' (first
    | exact keepsLog_some _ _
    | refine keepsLog_bind _ _ _ fun _ => ?_)

theorem Resize_Build_keepsLog (op : ResizeOperation) (log : Log) :
    KeepsLog (op.Build log : Option (TensorOp F × Log)) log := by
  unfold ResizeOperation.Build
  repeat' (first
    | exact keepsLog_some _ _
    | refine keepsLog_bind _ _ _ fun _ => ?_
    | refine keepsLog_ite _ _ _ _ ?_ ?_)

mutual
theorem Build_keepsLog : ∀ (op : TensorOperation F) (log : Log), KeepsLog (op.Build log) log
  | .CenterCrop op, log => by
    simpa only [TensorOperation.Build] using CenterCrop_Build_keepsLog op log
  | .CutOut op, log => by
    simpa only [TensorOperation.Build] using keepsLog_some _ log
  | .Decode op, log => by
    simpa only [TensorOperation.Build] using keepsLog_some _ log
  | .Normalize op, log => by
    simpa only [TensorOperation.Build] using Normalize_Build_keepsLog op log
  | .Pad op, log => by
    simpa only [TensorOperation.Build] using Pad_Build_keepsLog op log
  | .RandomColorAdjust op, log => by
    simpa only [TensorOperation.Build] using RandomColorAdjust_Build_keepsLog op log
  | .RandomCrop op, log => by
    simpa only [TensorOperation.Build] using RandomCrop_Build_keepsLog op log
  | .RandomHorizontalFlip op, log => by
    simpa only [TensorOperation.Build] using keepsLog_some _ log
  | .RandomRotation op, log => by
    simpa only [TensorOperation.Build] using RandomRotation_Build_keepsLog op log
  | .RandomVerticalFlip op, log => by
    simpa only [TensorOperation.Build] using keepsLog_some _ log
  | .Resize op, log => by
    simpa only [TensorOperation.Build] using Resize_Build_keepsLog op log
  | .UniformAug transforms_ num_ops_, log => by
    intro r log1 h
    have ih := BuildEach_keepsLog transforms_ log
    simp only [TensorOperation.Build] at h
    cases hb : TensorOperation.BuildEach transforms_ log with
    | none => simp [hb] at h
    | some p =>
      obtain ⟨ks, log2⟩ := p
      simp only [hb, Option.some.injEq, Prod.mk.injEq] at h
      rw [← h.2]
      exact ih ks log2 hb
theorem BuildEach_keepsLog :
    ∀ (transforms : List (Option (TensorOperation F))) (log : Log),
      KeepsLog (TensorOperation.BuildEach transforms log) log
  | [], log => by
    simpa only [TensorOperation.BuildEach] using keepsLog_some _ log
  | none :: _, log => by
    intro r log1 h
    simp [TensorOperation.BuildEach] at h
  | some op :: rest, log => by
    intro r log1 h
    have ih1 := Build_keepsLog op log
    simp only [TensorOperation.BuildEach] at h
    cases hb : TensorOperation.Build op log with
    | none => simp [hb] at h
    | some p =>
      obtain ⟨k, log2⟩ := p
      have hlog2 : log2 = log := ih1 k log2 hb
      subst hlog2
      have ih2 := BuildEach_keepsLog rest log2
      cases hr : TensorOperation.BuildEach rest log2 with
      | none => simp [hb, hr] at h
      | some q =>
        obtain ⟨ks, log3⟩ := q
        simp only [hb, hr, Option.some.injEq, Prod.mk.injEq] at h
        rw [← h.2]
        exact ih2 ks log3 hr
end

/-! ## `Build` on a validated descriptor -/

theorem CenterCrop_Build_of_valid (op : CenterCropOperation) (log : Log)
    (h : (op.ValidateParams log).1 = true) :
    ∃ k, (op.Build log : Option (TensorOp F × Log)) = some (k, log) := by
  rcases CenterCrop_ValidateParams_eq op log with ⟨hs, _⟩ | ⟨_, msg, hv⟩
  · obtain ⟨size⟩ := op
    rcases hs with hs | hs
    · obtain ⟨a, rfl⟩ := length_one_shape size hs
      exact ⟨_, rfl⟩
    · obtain ⟨a, b, rfl⟩ := length_two_shape size hs
      exact ⟨_, rfl⟩
  · simp [hv] at h

theorem Resize_Build_of_valid (op : ResizeOperation) (log : Log)
    (h : (op.ValidateParams log).1 = true) :
    ∃ k, (op.Build log : Option (TensorOp F × Log)) = some (k, log) := by
  rcases Resize_ValidateParams_eq op log with ⟨hs, _⟩ | ⟨_, msg, hv⟩
  · obtain ⟨size, mode⟩ := op
    rcases hs with hs | hs
    · obtain ⟨a, rfl⟩ := length_one_shape size hs
      exact ⟨_, rfl⟩
    · obtain ⟨a, b, rfl⟩ := length_two_shape size hs
      exact ⟨_, rfl⟩
  · simp [hv] at h

theorem Normalize_Build_of_valid (op : NormalizeOperation F) (log : Log)
    (h : (op.ValidateParams log).1 = true) : ∃ k, op.Build log = some (k, log) := by
  rcases Normalize_ValidateParams_eq op log with ⟨⟨hm, hs⟩, _⟩ | ⟨_, msg, hv⟩
  · obtain ⟨mean, std⟩ := op
    obtain ⟨m0, m1, m2, rfl⟩ := length_three_shape mean hm
    obtain ⟨s0, s1, s2, rfl⟩ := length_three_shape std hs
    exact ⟨_, rfl⟩
  · simp [hv] at h

theorem Pad_Build_of_valid (op : PadOperation) (log : Log)
    (h : (op.ValidateParams log).1 = true) :
    ∃ k, (op.Build log : Option (TensorOp F × Log)) = some (k, log) := by
  rcases Pad_ValidateParams_eq op log with ⟨⟨hp, hf⟩, _⟩ | ⟨_, msg, hv⟩
  · obtain ⟨padding, fill, mode⟩ := op
    have hfill : (∃ v, fill = [v]) ∨ (∃ r g b, fill = [r, g, b]) :=
      hf.elim (fun h1 => Or.inl (length_one_shape fill h1))
        (fun h3 => Or.inr (length_three_shape fill h3))
    rcases hp with hp | hp | hp
    · obtain ⟨a, rfl⟩ := length_one_shape padding hp
      rcases hfill with ⟨v, rfl⟩ | ⟨r, g, b, rfl⟩ <;> exact ⟨_, rfl⟩
    · obtain ⟨a, b, rfl⟩ := length_two_shape padding hp
      rcases hfill with ⟨v, rfl⟩ | ⟨r, g, b, rfl⟩ <;> exact ⟨_, rfl⟩
    · obtain ⟨a, b, c, d, rfl⟩ := length_four_shape padding hp
      rcases hfill with ⟨v, rfl⟩ | ⟨r, g, b, rfl⟩ <;> exact ⟨_, rfl⟩
  · simp [hv] at h

theorem RandomColorAdjust_Build_of_valid (op : RandomColorAdjustOperation F) (log : Log)
    (h : (op.ValidateParams log).1 = true) : ∃ k, op.Build log = some (k, log) := by
  rcases RandomColorAdjust_ValidateParams_eq op log with ⟨⟨hb, hc, hs, hh⟩, _⟩ | ⟨_, msg, hv⟩
  · obtain ⟨brightness, contrast, saturation, hue⟩ := op
    have shape : ∀ v : List F, v.length = 1 ∨ v.length = 2 →
        (∃ a, v = [a]) ∨ (∃ a b, v = [a, b]) := fun v hv =>
      hv.elim (fun h => Or.inl (length_one_shape v h)) (fun h => Or.inr (length_two_shape v h))
    rcases shape brightness hb with ⟨b0, rfl⟩ | ⟨b0, b1, rfl⟩ <;>
      rcases shape contrast hc with ⟨c0, rfl⟩ | ⟨c0, c1, rfl⟩ <;>
      rcases shape saturation hs with ⟨s0, rfl⟩ | ⟨s0, s1, rfl⟩ <;>
      rcases shape hue hh with ⟨h0, rfl⟩ | ⟨h0, h1, rfl⟩ <;>
      exact ⟨_, rfl⟩
  · simp [hv] at h

theorem RandomCrop_Build_of_valid (op : RandomCropOperation) (log : Log)
    (h : (op.ValidateParams log).1 = true) :
    ∃ k, (op.Build log : Option (TensorOp F × Log)) = some (k, log) := by
  rcases RandomCrop_ValidateParams_eq op log with ⟨⟨hs, hp, hf⟩, _⟩ | ⟨_, msg, hv⟩
  · obtain ⟨size, padding, pad_if_needed, fill⟩ := op
    obtain ⟨t, b, l, r, rfl⟩ := length_four_shape padding hp
    obtain ⟨fr, fg, fb, rfl⟩ := length_three_shape fill hf
    rcases hs with hs | hs
    · obtain ⟨a, rfl⟩ := length_one_shape size hs
      exact ⟨_, rfl⟩
    · obtain ⟨a, w, rfl⟩ := length_two_shape size hs
      exact ⟨_, rfl⟩
  · simp [hv] at h

theorem RandomRotation_Build_of_valid (op : RandomRotationOperation F) (log : Log)
    (h : (op.ValidateParams log).1 = true) : ∃ k, op.Build log = some (k, log) := by
  rcases RandomRotation_ValidateParams_eq op log with ⟨⟨hd, hc, hf⟩, _⟩ | ⟨_, msg, hv⟩
  · obtain ⟨degrees, mode, expand, center, fill⟩ := op
    obtain ⟨d0, d1, rfl⟩ := length_two_shape degrees hd
    obtain ⟨c0, c1, rfl⟩ := length_two_shape center hc
    obtain ⟨r, g, b, rfl⟩ := length_three_shape fill hf
    exact ⟨_, rfl⟩
  · simp [hv] at h

mutual
theorem Build_of_validated :
    ∀ (op : TensorOperation F) (log : Log), op.validated log = true →
      ∃ k, op.Build log = some (k, log)
  | .CenterCrop op, log, h => by
    simpa only [TensorOperation.Build] using CenterCrop_Build_of_valid op log
      (by simpa only [TensorOperation.validated, TensorOperation.ValidateParams] using h)
  | .CutOut op, log, _ => ⟨_, rfl⟩
  | .Decode op, log, _ => ⟨_, rfl⟩
  | .Normalize op, log, h => by
    simpa only [TensorOperation.Build] using Normalize_Build_of_valid op log
      (by simpa only [TensorOperation.validated, TensorOperation.ValidateParams] using h)
  | .Pad op, log, h => by
    simpa only [TensorOperation.Build] using Pad_Build_of_valid op log
      (by simpa only [TensorOperation.validated, TensorOperation.ValidateParams] using h)
  | .RandomColorAdjust op, log, h => by
    simpa only [TensorOperation.Build] using RandomColorAdjust_Build_of_valid op log
      (by simpa only [TensorOperation.validated, TensorOperation.ValidateParams] using h)
  | .RandomCrop op, log, h => by
    simpa only [TensorOperation.Build] using RandomCrop_Build_of_valid op log
      (by simpa only [TensorOperation.validated, TensorOperation.ValidateParams] using h)
  | .RandomHorizontalFlip op, log, _ => ⟨_, rfl⟩
  | .RandomRotation op, log, h => by
    simpa only [TensorOperation.Build] using RandomRotation_Build_of_valid op log
      (by simpa only [TensorOperation.validated, TensorOperation.ValidateParams] using h)
  | .RandomVerticalFlip op, log, _ => ⟨_, rfl⟩
  | .Resize op, log, h => by
    simpa only [TensorOperation.Build] using Resize_Build_of_valid op log
      (by simpa only [TensorOperation.validated, TensorOperation.ValidateParams] using h)
  | .UniformAug transforms_ num_ops_, log, h => by
    have h2 : TensorOperation.validatedEach transforms_ log = true := by
      simp only [TensorOperation.validated, Bool.and_eq_true] at h
      exact h.2
    obtain ⟨ks, hks, _⟩ := BuildEach_of_validatedEach transforms_ log h2
    exact ⟨TensorOp.UniformAugOp ks num_ops_, by simp only [TensorOperation.Build, hks]⟩
theorem BuildEach_of_validatedEach :
    ∀ (transforms : List (Option (TensorOperation F))) (log : Log),
      TensorOperation.validatedEach transforms log = true →
      ∃ tensor_ops, TensorOperation.BuildEach transforms log = some (tensor_ops, log)
        ∧ tensor_ops.length = transforms.length
        ∧ ∀ i, i < transforms.length →
            ∃ c k, transforms[i]? = some (some c) ∧ tensor_ops[i]? = some k
              ∧ c.Build log = some (k, log)
  | [], log, _ => ⟨[], rfl, rfl, fun i hi => absurd hi (Nat.not_lt_zero i)⟩
  | none :: _, log, h => by
    simp [TensorOperation.validatedEach] at h
  | some op :: rest, log, h => by
    simp only [TensorOperation.validatedEach, Bool.and_eq_true] at h
    obtain ⟨k, hk⟩ := Build_of_validated op log h.1
    obtain ⟨ks, hks, hlen, hidx⟩ := BuildEach_of_validatedEach rest log h.2
    refine ⟨k :: ks, by simp only [TensorOperation.BuildEach, hk, hks], by simp [hlen], ?_⟩
    intro i hi
    cases i with
    | zero => exact ⟨op, k, by simp, by simp, hk⟩
    | succ j =>
      obtain ⟨c, kj, hc, hkj, hB⟩ := hidx j (by simpa using hi)
      exact ⟨c, kj, by simpa using hc, by simpa using hkj, hB⟩
end

/-- C7: `Build` does not fail on a validated descriptor and writes nothing to the log. For
every descriptor on which `ValidateParams` returns true (and, for UniformAugment, whose
children are all present and satisfy the same condition), every vector read of `Build` is
inside the vector, so `Build` returns a kernel, and the log after the call is the log
before it. -/
theorem Build_total_of_validated (op : TensorOperation F) (log : Log)
    (h : op.validated log = true) :
    ∃ kernel, op.Build log = some (kernel, log) :=
  Build_of_validated op log h

/-- Witness of C7 at a UniformAugment over `Resize([32,32])`, `Pad([1,2,3,4], [0])` and a
nested UniformAugment over `Normalize`, with a log that already holds a line. -/
theorem Build_total_of_validated_witness :
    TensorOperation.validated
        (TensorOperation.UniformAug
          [some (.Resize ⟨[32, 32], .kLinear⟩), some (.Pad ⟨[1, 2, 3, 4], [0], .kConstant⟩),
            some (.UniformAug [some (.Normalize ⟨[1, 2, 3], [4, 5, 6]⟩)] 7)] 1 :
          TensorOperation ℚ) ["earlier line"] = true
    ∧ ∃ kernel,
        TensorOperation.Build
          (TensorOperation.UniformAug
            [some (.Resize ⟨[32, 32], .kLinear⟩), some (.Pad ⟨[1, 2, 3, 4], [0], .kConstant⟩),
              some (.UniformAug [some (.Normalize ⟨[1, 2, 3], [4, 5, 6]⟩)] 7)] 1 :
            TensorOperation ℚ) ["earlier line"] = some (kernel, ["earlier line"]) :=
  ⟨by decide, Build_total_of_validated _ _ (by decide)⟩

/-- C8: for a UniformAugment descriptor whose children are all present and validated,
`Build` makes the kernel over a list of child kernels of the same length as the child
list, whose i-th element is the result of the i-th child's `Build`, together with the
stored `num_ops`. -/
theorem UniformAug_Build_children (op : UniformAugOperation F) (log : Log)
    (h : TensorOperation.validatedEach op.transforms_ log = true) :
    ∃ tensor_ops,
      op.Build log = some (TensorOp.UniformAugOp tensor_ops op.num_ops_, log)
      ∧ tensor_ops.length = op.transforms_.length
      ∧ ∀ i, i < op.transforms_.length →
          ∃ c k, op.transforms_[i]? = some (some c) ∧ tensor_ops[i]? = some k
            ∧ c.Build log = some (k, log) := by
  obtain ⟨ks, hks, hlen, hidx⟩ := BuildEach_of_validatedEach op.transforms_ log h
  exact ⟨ks, by simp only [UniformAugOperation.Build, TensorOperation.Build, hks], hlen, hidx⟩

/-- Witness of C8: the children `[Resize([32,32], BILINEAR), RandomHorizontalFlip(0.5)]` with
`num_ops = 1` give a kernel that holds the Resize kernel `(32, 32, BILINEAR)` first and the
flip kernel `(0.5)` second. -/
theorem UniformAug_Build_children_witness :
    UniformAugOperation.Build
        (⟨[some (.Resize ⟨[32, 32], .kLinear⟩), some (.RandomHorizontalFlip ⟨0.5⟩)], 1⟩ :
          UniformAugOperation ℚ) []
      = some (TensorOp.UniformAugOp
          [TensorOp.ResizeOp 32 32 .kLinear, TensorOp.RandomHorizontalFlipOp 0.5] 1, []) := by
  obtain ⟨ks, hB, hlen, hidx⟩ :=
    UniformAug_Build_children
      (⟨[some (.Resize ⟨[32, 32], .kLinear⟩), some (.RandomHorizontalFlip ⟨0.5⟩)], 1⟩ :
        UniformAugOperation ℚ) [] (by decide)
  obtain ⟨c0, k0, hc0, hk0, hB0⟩ := hidx 0 (by decide)
  obtain ⟨c1, k1, hc1, hk1, hB1⟩ := hidx 1 (by decide)
  simp only [List.getElem?_cons_zero, List.getElem?_cons_succ, Option.some.injEq] at hc0 hc1
  subst hc0 hc1
  have e0 : k0 = TensorOp.ResizeOp 32 32 .kLinear := by
    have h0 : TensorOperation.Build (TensorOperation.Resize ⟨[32, 32], .kLinear⟩ :
        TensorOperation ℚ) [] = some (TensorOp.ResizeOp 32 32 .kLinear, []) := rfl
    rw [hB0] at h0
    simpa using h0
  have e1 : k1 = TensorOp.RandomHorizontalFlipOp 0.5 := by
    have h1 : TensorOperation.Build (TensorOperation.RandomHorizontalFlip ⟨0.5⟩ :
        TensorOperation ℚ) [] = some (TensorOp.RandomHorizontalFlipOp 0.5, []) := rfl
    rw [hB1] at h1
    simpa using h1
  subst e0 e1
  have hks : ks = [TensorOp.ResizeOp 32 32 .kLinear, TensorOp.RandomHorizontalFlipOp 0.5] := by
    rcases ks with _ | ⟨a, _ | ⟨b, _ | ⟨c, t⟩⟩⟩
    · simp at hlen
    · simp at hlen
    · simp only [List.getElem?_cons_zero, List.getElem?_cons_succ, Option.some.injEq]
        at hk0 hk1
      rw [hk0, hk1]
    · simp at hlen
  rw [hks] at hB
  exact hB

/-! ## The tests of `ValidateParams` in terms of the rules -/

theorem test_one_or_two {α : Type} (v : List α) :
    (v.isEmpty || decide (v.length > 2)) = !decide (v.length = 1 ∨ v.length = 2) := by
  rw [isEmpty_eq_decide_length, Bool.eq_iff_iff]
  simp only [Bool.or_eq_true, decide_eq_true_eq, Bool.not_eq_true', decide_eq_false_iff_not]
  omega

theorem test_one_two_or_four {α : Type} (v : List α) :
    (v.isEmpty || decide (v.length = 3) || decide (v.length > 4))
      = !decide (v.length = 1 ∨ v.length = 2 ∨ v.length = 4) := by
  rw [isEmpty_eq_decide_length, Bool.eq_iff_iff]
  simp only [Bool.or_eq_true, decide_eq_true_eq, Bool.not_eq_true', decide_eq_false_iff_not]
  omega

theorem test_one_or_three {α : Type} (v : List α) :
    (v.isEmpty || (decide (v.length ≠ 1) && decide (v.length ≠ 3)))
      = !decide (v.length = 1 ∨ v.length = 3) := by
  rw [isEmpty_eq_decide_length, Bool.eq_iff_iff]
  simp only [Bool.or_eq_true, Bool.and_eq_true, decide_eq_true_eq, Bool.not_eq_true',
    decide_eq_false_iff_not, ne_eq]
  omega

theorem test_exactly {α : Type} (v : List α) (n : Nat) (hn : 0 < n) :
    (v.isEmpty || decide (v.length ≠ n)) = !decide (v.length = n) := by
  rw [isEmpty_eq_decide_length, Bool.eq_iff_iff]
  simp only [Bool.or_eq_true, decide_eq_true_eq, Bool.not_eq_true', decide_eq_false_iff_not,
    ne_eq]
  omega

theorem ValidateParams_eq_firstViolation (op : TensorOperation F) (log : Log) :
    op.ValidateParams log
      = match Spec.firstViolation op with
        | none => (true, log)
        | some r => (false, log ++ [r.line]) := by
  cases op with
  | CenterCrop op =>
    simp only [TensorOperation.ValidateParams, CenterCropOperation.ValidateParams,
      Spec.firstViolation, Spec.rulesInOrder, MS_LOG_ERROR, test_one_or_two]
    by_cases h : op.size_.length = 1 ∨ op.size_.length = 2 <;> simp [h]
  | CutOut op =>
    simp only [TensorOperation.ValidateParams, CutOutOperation.ValidateParams,
      Spec.firstViolation, Spec.rulesInOrder, MS_LOG_ERROR, ← not_le]
    by_cases h1 : 0 ≤ op.length_ <;> by_cases h2 : 0 ≤ op.num_patches_ <;> simp [h1, h2]
  | Decode op => rfl
  | Normalize op =>
    simp only [TensorOperation.ValidateParams, NormalizeOperation.ValidateParams,
      Spec.firstViolation, Spec.rulesInOrder, MS_LOG_ERROR]
    by_cases h1 : op.mean_.length = 3 <;> by_cases h2 : op.std_.length = 3 <;> simp [h1, h2]
  | Pad op =>
    simp only [TensorOperation.ValidateParams, PadOperation.ValidateParams,
      Spec.firstViolation, Spec.rulesInOrder, MS_LOG_ERROR, test_one_two_or_four,
      test_one_or_three]
    by_cases h1 : op.padding_.length = 1 ∨ op.padding_.length = 2 ∨ op.padding_.length = 4 <;>
      by_cases h2 : op.fill_value_.length = 1 ∨ op.fill_value_.length = 3 <;> simp [h1, h2]
  | RandomColorAdjust op =>
    simp only [TensorOperation.ValidateParams, RandomColorAdjustOperation.ValidateParams,
      Spec.firstViolation, Spec.rulesInOrder, MS_LOG_ERROR, test_one_or_two]
    by_cases h1 : op.brightness_.length = 1 ∨ op.brightness_.length = 2 <;>
      by_cases h2 : op.contrast_.length = 1 ∨ op.contrast_.length = 2 <;>
      by_cases h3 : op.saturation_.length = 1 ∨ op.saturation_.length = 2 <;>
      by_cases h4 : op.hue_.length = 1 ∨ op.hue_.length = 2 <;> simp [h1, h2, h3, h4]
  | RandomCrop op =>
    simp only [TensorOperation.ValidateParams, RandomCropOperation.ValidateParams,
      Spec.firstViolation, Spec.rulesInOrder, MS_LOG_ERROR, test_one_or_two,
      test_exactly _ 4 (by decide), test_exactly _ 3 (by decide)]
    by_cases h1 : op.size_.length = 1 ∨ op.size_.length = 2 <;>
      by_cases h2 : op.padding_.length = 4 <;>
      by_cases h3 : op.fill_value_.length = 3 <;> simp [h1, h2, h3]
  | RandomHorizontalFlip op => rfl
  | RandomRotation op =>
    simp only [TensorOperation.ValidateParams, RandomRotationOperation.ValidateParams,
      Spec.firstViolation, Spec.rulesInOrder, MS_LOG_ERROR,
      test_exactly _ 2 (by decide), test_exactly _ 3 (by decide)]
    by_cases h1 : op.degrees_.length = 2 <;>
      by_cases h2 : op.center_.length = 2 <;>
      by_cases h3 : op.fill_value_.length = 3 <;> simp [h1, h2, h3]
  | RandomVerticalFlip op => rfl
  | Resize op =>
    simp only [TensorOperation.ValidateParams, ResizeOperation.ValidateParams,
      Spec.firstViolation, Spec.rulesInOrder, MS_LOG_ERROR, test_one_or_two]
    by_cases h : op.size_.length = 1 ∨ op.size_.length = 2 <;> simp [h]
  | UniformAug transforms_ num_ops_ => rfl

/-- The first element of a list that fails a test, when all the elements before it pass. -/
theorem find_first_failing (pre post : List Spec.Rule) (r : Spec.Rule)
    (hpre : ∀ q ∈ pre, q.holds = true) (hr : r.holds = false) :
    (pre ++ r :: post).find? (fun q => !q.holds) = some r := by
  induction pre with
  | nil => simp [hr]
  | cons q rest ih =>
    have hq : q.holds = true := hpre q (List.mem_cons_self q rest)
    have hrest : ∀ q1 ∈ rest, q1.holds = true := fun q1 h1 =>
      hpre q1 (List.mem_cons_of_mem q h1)
    simp [hq, ih hrest]

/-! ## CutOut, and the operators without a rule -/

/-- C11: for every length >= 0 and num_patches >= 0 the CutOut factory returns the
descriptor, and `Build` passes the kernel `(length, length, num_patches, false, 0, 0, 0)`:
height and width are equal, the fill is black and `is_random` is false. -/
theorem CutOut_Build_args (length num_patches : Int) (log : Log)
    (hl : 0 ≤ length) (hn : 0 ≤ num_patches) :
    CutOut length num_patches log = (some ⟨length, num_patches⟩, log)
    ∧ (CutOutOperation.Build ⟨length, num_patches⟩ log : Option (TensorOp F × Log))
        = some (TensorOp.CutOutOp length length num_patches false 0 0 0, log) := by
  refine ⟨?_, rfl⟩
  rcases CutOut_ValidateParams_eq ⟨length, num_patches⟩ log with ⟨_, hv⟩ | ⟨hnot, _⟩
  · simp [CutOut, hv]
  · exact absurd ⟨hl, hn⟩ hnot

/-- Witness of C11 at `CutOut(8, 2)` and at `CutOut(0, 0)`. -/
theorem CutOut_Build_args_witness :
    (CutOut 8 2 [] = (some ⟨8, 2⟩, [])
      ∧ (CutOutOperation.Build ⟨8, 2⟩ [] : Option (TensorOp ℚ × Log))
          = some (TensorOp.CutOutOp 8 8 2 false 0 0 0, []))
    ∧ (CutOut 0 0 [] = (some ⟨0, 0⟩, [])
      ∧ (CutOutOperation.Build ⟨0, 0⟩ [] : Option (TensorOp ℚ × Log))
          = some (TensorOp.CutOutOp 0 0 0 false 0 0 0, [])) :=
  ⟨CutOut_Build_args 8 2 [] (by decide) (by decide),
   CutOut_Build_args 0 0 [] (by decide) (by decide)⟩

/-- C13: the operators without a validation rule never reject. `Decode(rgb)` is present for
every `rgb`; `RandomHorizontalFlip(prob)` and `RandomVerticalFlip(prob)` are present for
every `prob` and their `Build` passes `prob` to the kernel; `UniformAugment` is present for
every child list and every `num_ops`. None of these calls writes a line to the log. -/
theorem no_rule_operators_accept (rgb : Bool) (prob : F)
    (transforms : List (Option (TensorOperation F))) (num_ops : Int) (log : Log) :
    Decode rgb log = (some ⟨rgb⟩, log)
    ∧ RandomHorizontalFlip prob log = (some ⟨prob⟩, log)
    ∧ RandomHorizontalFlipOperation.Build ⟨prob⟩ log
        = some (TensorOp.RandomHorizontalFlipOp prob, log)
    ∧ RandomVerticalFlip prob log = (some ⟨prob⟩, log)
    ∧ RandomVerticalFlipOperation.Build ⟨prob⟩ log
        = some (TensorOp.RandomVerticalFlipOp prob, log)
    ∧ UniformAugment transforms num_ops log = (some ⟨transforms, num_ops⟩, log) :=
  ⟨rfl, rfl, rfl, rfl, rfl, rfl⟩

/-- Witness of C13 at a probability outside `[0, 1]`, at an empty child list with a negative
`num_ops`, and at a child list of one element with `num_ops = 5`. -/
theorem no_rule_operators_accept_witness :
    RandomHorizontalFlip (-3 : ℚ) [] = (some ⟨-3⟩, [])
    ∧ RandomVerticalFlipOperation.Build (⟨2⟩ : RandomVerticalFlipOperation ℚ) []
        = some (TensorOp.RandomVerticalFlipOp 2, [])
    ∧ UniformAugment ([] : List (Option (TensorOperation ℚ))) (-1) [] = (some ⟨[], -1⟩, [])
    ∧ UniformAugment ([some (.Decode ⟨true⟩)] : List (Option (TensorOperation ℚ))) 5 []
        = (some ⟨[some (.Decode ⟨true⟩)], 5⟩, []) :=
  ⟨(no_rule_operators_accept true (-3 : ℚ) [] 0 []).2.1,
   (no_rule_operators_accept true (2 : ℚ) [] 0 []).2.2.2.2.1,
   (no_rule_operators_accept true (0 : ℚ) [] (-1) []).2.2.2.2.2,
   (no_rule_operators_accept true (0 : ℚ) [some (.Decode ⟨true⟩)] 5 []).2.2.2.2.2⟩

/-! ## One line for the first violated rule -/

/-- Counterexample to C12 as stated: a Normalize descriptor whose mean and std are both
empty violates both rules, yet one call of `ValidateParams` writes the line for mean only,
and the line for std is not written. `CutOut(-1, -1)` and `Pad([1,2,3], [1,2])` violate two
rules each and get one line each. -/
theorem violated_rule_without_line :
    TensorOperation.ValidateParams
        (TensorOperation.Normalize ⟨[], []⟩ : TensorOperation ℚ) []
      = (false, ["Normalize: mean vector has incorrect size: 0"])
    ∧ (∃ r ∈ Spec.rulesInOrder (TensorOperation.Normalize ⟨[], []⟩ : TensorOperation ℚ),
        r.holds = false
        ∧ r.line ∉ (TensorOperation.ValidateParams
            (TensorOperation.Normalize ⟨[], []⟩ : TensorOperation ℚ) []).2)
    ∧ TensorOperation.ValidateParams
        (TensorOperation.CutOut ⟨-1, -1⟩ : TensorOperation ℚ) []
      = (false, ["CutOut: length cannot be negative"])
    ∧ TensorOperation.ValidateParams
        (TensorOperation.Pad ⟨[1, 2, 3], [1, 2], .kConstant⟩ : TensorOperation ℚ) []
      = (false, ["Pad: padding vector has incorrect size: padding.size()"]) := by
  refine ⟨by decide, ⟨⟨false, "Normalize: std vector has incorrect size: 0"⟩, ?_, rfl, ?_⟩,
    by decide, by decide⟩
  · decide
  · decide

/-- C12 (amended): for every descriptor and every rule of the table that its parameters
violate and that no violated rule precedes in the check order, a call of `ValidateParams`
returns false and writes the diagnostic line of that rule, and no other line. -/
theorem first_violated_rule_reported (op : TensorOperation F) (log : Log)
    (pre post : List Spec.Rule) (r : Spec.Rule)
    (hsplit : Spec.rulesInOrder op = pre ++ r :: post)
    (hpre : ∀ q ∈ pre, q.holds = true) (hr : r.holds = false) :
    op.ValidateParams log = (false, log ++ [r.line]) := by
  have hfirst : Spec.firstViolation op = some r := by
    unfold Spec.firstViolation
    rw [hsplit]
    exact find_first_failing pre post r hpre hr
  rw [ValidateParams_eq_firstViolation op log, hfirst]

/-- Witness of C12 (amended): in `Normalize` with three means and no deviation the rule for
std is the first violated one; in `Pad([1,2,3], [1,2])` it is the rule for padding. -/
theorem first_violated_rule_reported_witness :
    TensorOperation.ValidateParams
        (TensorOperation.Normalize ⟨[1, 2, 3], []⟩ : TensorOperation ℚ) ["earlier line"]
      = (false, ["earlier line", "Normalize: std vector has incorrect size: 0"])
    ∧ TensorOperation.ValidateParams
        (TensorOperation.Pad ⟨[1, 2, 3], [1, 2], .kConstant⟩ : TensorOperation ℚ) []
      = (false, ["Pad: padding vector has incorrect size: padding.size()"]) :=
  ⟨first_violated_rule_reported
      (TensorOperation.Normalize ⟨[1, 2, 3], []⟩ : TensorOperation ℚ) ["earlier line"]
      [⟨true, "Normalize: mean vector has incorrect size: 3"⟩] []
      ⟨false, "Normalize: std vector has incorrect size: 0"⟩ (by decide) (by decide) rfl,
   first_violated_rule_reported
      (TensorOperation.Pad ⟨[1, 2, 3], [1, 2], .kConstant⟩ : TensorOperation ℚ) []
      [] [⟨false, "Pad: fill_value vector has incorrect size: fill_value.size()"⟩]
      ⟨false, "Pad: padding vector has incorrect size: padding.size()"⟩
      (by decide) (by decide) rfl⟩

/-- C16: `ValidateParams` stops at the first failing rule. One call returns true and writes
no line when no rule of the operator is violated; otherwise it returns false and writes
exactly one line, that of the first violated rule in the check order of the code. -/
theorem ValidateParams_stops_at_first_violation (op : TensorOperation F) (log : Log) :
    (op.ValidateParams log
      = match Spec.firstViolation op with
        | none => (true, log)
        | some r => (false, log ++ [r.line]))
    ∧ ((op.ValidateParams log).1 = true → (op.ValidateParams log).2 = log)
    ∧ ((op.ValidateParams log).1 = false →
        ∃ line, (op.ValidateParams log).2 = log ++ [line]) := by
  have h := ValidateParams_eq_firstViolation op log
  refine ⟨h, ?_, ?_⟩
  · intro ht
    cases hf : Spec.firstViolation op with
    | none => rw [h, hf]
    | some r => rw [h, hf] at ht; exact absurd ht (by simp)
  · intro hfalse
    cases hf : Spec.firstViolation op with
    | none => rw [h, hf] at hfalse; exact absurd hfalse (by simp)
    | some r => exact ⟨r.line, by rw [h, hf]⟩

/-- Witness of C16: with contrast and hue both of a wrong length the line is the one for
contrast; with padding and fill of RandomCrop both wrong it is the one for padding; with
center and fill of RandomRotation both wrong it is the one for center; `CutOut(-1, -1)`
gets the line for length; and a valid Resize gets none. -/
theorem ValidateParams_stops_at_first_violation_witness :
    TensorOperation.ValidateParams
        (TensorOperation.RandomColorAdjust ⟨[1], [], [1, 1], [1, 2, 3]⟩ : TensorOperation ℚ) []
      = (false, ["RandomColorAdjust: contrast must be a vector of one or two values"])
    ∧ TensorOperation.ValidateParams
        (TensorOperation.RandomCrop ⟨[5], [1], true, []⟩ : TensorOperation ℚ) []
      = (false, ["RandomCrop: padding vector has incorrect size: padding.size()"])
    ∧ TensorOperation.ValidateParams
        (TensorOperation.RandomRotation ⟨[0, 1], .kLinear, false, [], []⟩ : TensorOperation ℚ) []
      = (false, ["RandomRotation: center vector has incorrect size: center.size()"])
    ∧ TensorOperation.ValidateParams
        (TensorOperation.CutOut ⟨-1, -1⟩ : TensorOperation ℚ) []
      = (false, ["CutOut: length cannot be negative"])
    ∧ TensorOperation.ValidateParams
        (TensorOperation.Resize ⟨[32, 32], .kLinear⟩ : TensorOperation ℚ) ["earlier line"]
      = (true, ["earlier line"]) :=
  ⟨(ValidateParams_stops_at_first_violation _ _).1,
   (ValidateParams_stops_at_first_violation _ _).1,
   (ValidateParams_stops_at_first_violation _ _).1,
   (ValidateParams_stops_at_first_violation _ _).1,
   (ValidateParams_stops_at_first_violation _ _).1⟩

/-! ## The results do not depend on the log -/

theorem ValidateParams_fst_log (op : TensorOperation F) (log log1 : Log) :
    (op.ValidateParams log).1 = (op.ValidateParams log1).1 := by
  rw [ValidateParams_eq_firstViolation op log, ValidateParams_eq_firstViolation op log1]
  cases Spec.firstViolation op <;> rfl

theorem relog_some {α : Type} (r : α) (log1 log2 : Log) :
    some (r, log2) = (some (r, log1)).map (fun p => (p.1, log2)) := rfl

theorem relog_bind {α β : Type} (x : Option α) (f g : α → Option (β × Log)) (log2 : Log)
    (h : ∀ a, g a = (f a).map (fun p => (p.1, log2))) :
    x.bind g = (x.bind f).map (fun p => (p.1, log2)) := by
  cases x with
  | none => rfl
  | some a => exact h a

theorem relog_ite {α : Type} (c : Prop) [Decidable c] (a b a1 b1 : Option (α × Log))
    (log2 : Log) (ha : a1 = a.map (fun p => (p.1, log2)))
    (hb : b1 = b.map (fun p => (p.1, log2))) :
    (if c then a1 else b1) = (if c then a else b).map (fun p => (p.1, log2)) := by
  split
  · exact ha
  · exact hb

theorem CenterCrop_Build_relog (op : CenterCropOperation) (log1 log2 : Log) :
    (op.Build log2 : Option (TensorOp F × Log))
      = (op.Build log1).map (fun p => (p.1, log2)) := by
  unfold CenterCropOperation.Build
  repeat' (first
    | exact relog_some _ _ _
    | refine relog_bind _ _ _ _ fun _ => ?_
    | refine relog_ite _ _ _ _ _ _ ?_ ?_)

theorem Normalize_Build_relog (op : NormalizeOperation F) (log1 log2 : Log) :
    op.Build log2 = (op.Build log1).map (fun p => (p.1, log2)) := by
  unfold NormalizeOperation.Build
  repeat' (first
    | exact relog_some _ _ _
    | refine relog_bind _ _ _ _ fun _ => ?_)

theorem Pad_Build_relog (op : PadOperation) (log1 log2 : Log) :
    (op.Build log2 : Option (TensorOp F × Log))
      = (op.Build log1).map (fun p => (p.1, log2)) := by
  unfold PadOperation.Build
  repeat' (first
    | exact relog_some _ _ _
    | refine relog_bind _ _ _ _ fun _ => ?_
    | refine relog_ite _ _ _ _ _ _ ?_ ?_)

theorem RandomColorAdjust_Build_relog (op : RandomColorAdjustOperation F)
    (log1 log2 : Log) :
    op.Build log2 = (op.Build log1).map (fun p => (p.1, log2)) := by
  unfold RandomColorAdjustOperation.Build
  repeat' (first
    | exact relog_some _ _ _
    | refine relog_bind _ _ _ _ fun _ => ?_
    | refine relog_ite _ _ _ _ _ _ ?_ ?_)

theorem RandomCrop_Build_relog (op : RandomCropOperation) (log1 log2 : Log) :
    (op.Build log2 : Option (TensorOp F × Log))
      = (op.Build log1).map (fun p => (p.1, log2)) := by
  unfold RandomCropOperation.Build
  repeat' (first
    | exact relog_some _ _ _
    | refine relog_bind _ _ _ _ fun _ => ?_
    | refine relog_ite _ _ _ _ _ _ ?_ ?_)

theorem RandomRotation_Build_relog (op : RandomRotationOperation F) (log1 log2 : Log) :
    op.Build log2 = (op.Build log1).map (fun p => (p.1, log2)) := by
  unfold RandomRotationOperation.Build
  repeat' (first
    | exact relog_some _ _ _
    | refine relog_bind _ _ _ _ fun _ => ?_)

theorem Resize_Build_relog (op : ResizeOperation) (log1 log2 : Log) :
    (op.Build log2 : Option (TensorOp F × Log))
      = (op.Build log1).map (fun p => (p.1, log2)) := by
  unfold ResizeOperation.Build
  repeat' (first
    | exact relog_some _ _ _
    | refine relog_bind _ _ _ _ fun _ => ?_
    | refine relog_ite _ _ _ _ _ _ ?_ ?_)

mutual
theorem Build_relog :
    ∀ (op : TensorOperation F) (log1 log2 : Log),
      op.Build log2 = (op.Build log1).map (fun p => (p.1, log2))
  | .CenterCrop op, log1, log2 => by
    simpa only [TensorOperation.Build] using CenterCrop_Build_relog op log1 log2
  | .CutOut op, log1, log2 => rfl
  | .Decode op, log1, log2 => rfl
  | .Normalize op, log1, log2 => by
    simpa only [TensorOperation.Build] using Normalize_Build_relog op log1 log2
  | .Pad op, log1, log2 => by
    simpa only [TensorOperation.Build] using Pad_Build_relog op log1 log2
  | .RandomColorAdjust op, log1, log2 => by
    simpa only [TensorOperation.Build] using RandomColorAdjust_Build_relog op log1 log2
  | .RandomCrop op, log1, log2 => by
    simpa only [TensorOperation.Build] using RandomCrop_Build_relog op log1 log2
  | .RandomHorizontalFlip op, log1, log2 => rfl
  | .RandomRotation op, log1, log2 => by
    simpa only [TensorOperation.Build] using RandomRotation_Build_relog op log1 log2
  | .RandomVerticalFlip op, log1, log2 => rfl
  | .Resize op, log1, log2 => by
    simpa only [TensorOperation.Build] using Resize_Build_relog op log1 log2
  | .UniformAug transforms_ num_ops_, log1, log2 => by
    have ih := BuildEach_relog transforms_ log1 log2
    simp only [TensorOperation.Build]
    rw [ih]
    cases TensorOperation.BuildEach transforms_ log1 with
    | none => rfl
    | some p => rfl
theorem BuildEach_relog :
    ∀ (transforms : List (Option (TensorOperation F))) (log1 log2 : Log),
      TensorOperation.BuildEach transforms log2
        = (TensorOperation.BuildEach transforms log1).map (fun p => (p.1, log2))
  | [], _, _ => rfl
  | none :: _, _, _ => rfl
  | some op :: rest, log1, log2 => by
    have ih1 := Build_relog op log1 log2
    simp only [TensorOperation.BuildEach]
    rw [ih1]
    cases TensorOperation.Build op log1 with
    | none => rfl
    | some p =>
      obtain ⟨k, l1⟩ := p
      have ih2 := BuildEach_relog rest l1 log2
      simp only [Option.map_some']
      rw [ih2]
      cases TensorOperation.BuildEach rest l1 with
      | none => rfl
      | some q => rfl
end

/-- The kernel that `Build` returns does not depend on the log. -/
theorem Build_kernel_log (op : TensorOperation F) (log1 log2 : Log) :
    (op.Build log2).map Prod.fst = (op.Build log1).map Prod.fst := by
  rw [Build_relog op log1 log2, Option.map_map]
  rfl

/-! ## Acceptance depends on the lengths only -/

theorem ValidateParams_fst_eq_decide (op : TensorOperation F) (log : Log) :
    (op.ValidateParams log).1 = decide (Spec.satisfiesRules op) := by
  cases op with
  | CenterCrop op =>
    rcases CenterCrop_ValidateParams_eq op log with ⟨hr, hv⟩ | ⟨hn, msg, hv⟩
    · simp only [TensorOperation.ValidateParams, hv]
      exact (decide_eq_true (by simpa only [Spec.satisfiesRules] using hr)).symm
    · simp only [TensorOperation.ValidateParams, hv]
      exact (decide_eq_false (by simpa only [Spec.satisfiesRules] using hn)).symm
  | CutOut op =>
    rcases CutOut_ValidateParams_eq op log with ⟨hr, hv⟩ | ⟨hn, msg, hv⟩
    · simp only [TensorOperation.ValidateParams, hv]
      exact (decide_eq_true (by simpa only [Spec.satisfiesRules] using hr)).symm
    · simp only [TensorOperation.ValidateParams, hv]
      exact (decide_eq_false (by simpa only [Spec.satisfiesRules] using hn)).symm
  | Decode op => simp [TensorOperation.ValidateParams, Spec.satisfiesRules,
      DecodeOperation.ValidateParams]
  | Normalize op =>
    rcases Normalize_ValidateParams_eq op log with ⟨hr, hv⟩ | ⟨hn, msg, hv⟩
    · simp only [TensorOperation.ValidateParams, hv]
      exact (decide_eq_true (by simpa only [Spec.satisfiesRules] using hr)).symm
    · simp only [TensorOperation.ValidateParams, hv]
      exact (decide_eq_false (by simpa only [Spec.satisfiesRules] using hn)).symm
  | Pad op =>
    rcases Pad_ValidateParams_eq op log with ⟨hr, hv⟩ | ⟨hn, msg, hv⟩
    · simp only [TensorOperation.ValidateParams, hv]
      exact (decide_eq_true (by simpa only [Spec.satisfiesRules] using hr)).symm
    · simp only [TensorOperation.ValidateParams, hv]
      exact (decide_eq_false (by simpa only [Spec.satisfiesRules] using hn)).symm
  | RandomColorAdjust op =>
    rcases RandomColorAdjust_ValidateParams_eq op log with ⟨hr, hv⟩ | ⟨hn, msg, hv⟩
    · simp only [TensorOperation.ValidateParams, hv]
      exact (decide_eq_true (by simpa only [Spec.satisfiesRules] using hr)).symm
    · simp only [TensorOperation.ValidateParams, hv]
      exact (decide_eq_false (by simpa only [Spec.satisfiesRules] using hn)).symm
  | RandomCrop op =>
    rcases RandomCrop_ValidateParams_eq op log with ⟨hr, hv⟩ | ⟨hn, msg, hv⟩
    · simp only [TensorOperation.ValidateParams, hv]
      exact (decide_eq_true (by simpa only [Spec.satisfiesRules] using hr)).symm
    · simp only [TensorOperation.ValidateParams, hv]
      exact (decide_eq_false (by simpa only [Spec.satisfiesRules] using hn)).symm
  | RandomHorizontalFlip op => simp [TensorOperation.ValidateParams, Spec.satisfiesRules,
      RandomHorizontalFlipOperation.ValidateParams]
  | RandomRotation op =>
    rcases RandomRotation_ValidateParams_eq op log with ⟨hr, hv⟩ | ⟨hn, msg, hv⟩
    · simp only [TensorOperation.ValidateParams, hv]
      exact (decide_eq_true (by simpa only [Spec.satisfiesRules] using hr)).symm
    · simp only [TensorOperation.ValidateParams, hv]
      exact (decide_eq_false (by simpa only [Spec.satisfiesRules] using hn)).symm
  | RandomVerticalFlip op => simp [TensorOperation.ValidateParams, Spec.satisfiesRules,
      RandomVerticalFlipOperation.ValidateParams]
  | Resize op =>
    rcases Resize_ValidateParams_eq op log with ⟨hr, hv⟩ | ⟨hn, msg, hv⟩
    · simp only [TensorOperation.ValidateParams, hv]
      exact (decide_eq_true (by simpa only [Spec.satisfiesRules] using hr)).symm
    · simp only [TensorOperation.ValidateParams, hv]
      exact (decide_eq_false (by simpa only [Spec.satisfiesRules] using hn)).symm
  | UniformAug transforms_ num_ops_ => simp [TensorOperation.ValidateParams, Spec.satisfiesRules,
      UniformAugOperation.ValidateParams]

theorem factory_eq_of_ValidateParams (op : TensorOperation F) (log : Log) :
    factory op log
      = (if (op.ValidateParams log).1 then some op else none, (op.ValidateParams log).2) := by
  cases op with
  | CenterCrop op =>
    rcases h : CenterCropOperation.ValidateParams op log with ⟨_ | _, log1⟩ <;>
      simp [factory, CenterCrop, TensorOperation.ValidateParams, h]
  | CutOut op =>
    rcases h : CutOutOperation.ValidateParams op log with ⟨_ | _, log1⟩ <;>
      simp [factory, CutOut, TensorOperation.ValidateParams, h]
  | Decode op => rfl
  | Normalize op =>
    rcases h : NormalizeOperation.ValidateParams op log with ⟨_ | _, log1⟩ <;>
      simp [factory, Normalize, TensorOperation.ValidateParams, h]
  | Pad op =>
    rcases h : PadOperation.ValidateParams op log with ⟨_ | _, log1⟩ <;>
      simp [factory, Pad, TensorOperation.ValidateParams, h]
  | RandomColorAdjust op =>
    rcases h : RandomColorAdjustOperation.ValidateParams op log with ⟨_ | _, log1⟩ <;>
      simp [factory, RandomColorAdjust, TensorOperation.ValidateParams, h]
  | RandomCrop op =>
    rcases h : RandomCropOperation.ValidateParams op log with ⟨_ | _, log1⟩ <;>
      simp [factory, RandomCrop, TensorOperation.ValidateParams, h]
  | RandomHorizontalFlip op => rfl
  | RandomRotation op =>
    rcases h : RandomRotationOperation.ValidateParams op log with ⟨_ | _, log1⟩ <;>
      simp [factory, RandomRotation, TensorOperation.ValidateParams, h]
  | RandomVerticalFlip op => rfl
  | Resize op =>
    rcases h : ResizeOperation.ValidateParams op log with ⟨_ | _, log1⟩ <;>
      simp [factory, Resize, TensorOperation.ValidateParams, h]
  | UniformAug transforms_ num_ops_ => rfl

theorem satisfiesRules_of_sameLengths (a b : TensorOperation F)
    (hs : Spec.sameLengths a b) (hc : a.isCutOut = false) :
    Spec.satisfiesRules a ↔ Spec.satisfiesRules b := by
  cases a <;> cases b <;>
    simp only [Spec.sameLengths, TensorOperation.isCutOut] at hs hc <;>
    simp only [Spec.satisfiesRules] <;>
    first
      | exact Iff.rfl
      | exact absurd hc (by decide)
      | (rw [hs])
      | (obtain ⟨h1, h2⟩ := hs; rw [h1, h2])
      | (obtain ⟨h1, h2, h3⟩ := hs; rw [h1, h2, h3])
      | (obtain ⟨h1, h2, h3, h4⟩ := hs; rw [h1, h2, h3, h4])

/-- C17: for every operator other than CutOut the result of `ValidateParams`, and so
whether the factory returns a descriptor, depends only on the lengths of the vectors: two
parameter tuples of the same operator whose corresponding vectors have equal lengths are
both accepted or both rejected, whatever the values in the vectors, the scalar and
enumeration parameters and the log. -/
theorem acceptance_depends_on_lengths (a b : TensorOperation F) (log log1 : Log)
    (hs : Spec.sameLengths a b) (hc : a.isCutOut = false) :
    (a.ValidateParams log).1 = (b.ValidateParams log1).1
    ∧ (factory a log).1.isSome = (factory b log1).1.isSome := by
  have hv : (a.ValidateParams log).1 = (b.ValidateParams log1).1 := by
    rw [ValidateParams_fst_eq_decide a log, ValidateParams_fst_eq_decide b log1]
    exact decide_eq_decide.mpr (satisfiesRules_of_sameLengths a b hs hc)
  refine ⟨hv, ?_⟩
  rw [factory_eq_of_ValidateParams a log, factory_eq_of_ValidateParams b log1, hv]
  cases (b.ValidateParams log1).1 <;> rfl

/-- Witness of C17: `CenterCrop([-5])`, `Resize([0, -1], mode)` and `Pad([-1], [0], mode)`
are accepted like the tuples with positive values of the same lengths, and their `Build`
passes those values to the kernel. -/
theorem acceptance_depends_on_lengths_witness :
    ((factory (TensorOperation.CenterCrop ⟨[-5]⟩ : TensorOperation ℚ) []).1.isSome
        = (factory (TensorOperation.CenterCrop ⟨[7]⟩ : TensorOperation ℚ) []).1.isSome
      ∧ factory (TensorOperation.CenterCrop ⟨[-5]⟩ : TensorOperation ℚ) []
          = (some (TensorOperation.CenterCrop ⟨[-5]⟩), [])
      ∧ TensorOperation.Build (TensorOperation.CenterCrop ⟨[-5]⟩ : TensorOperation ℚ) []
          = some (TensorOp.CenterCropOp (-5) 0, []))
    ∧ ((factory (TensorOperation.Resize ⟨[0, -1], .kLinear⟩ : TensorOperation ℚ) []).1.isSome
        = (factory (TensorOperation.Resize ⟨[32, 32], .kNearestNeighbour⟩ :
            TensorOperation ℚ) []).1.isSome
      ∧ factory (TensorOperation.Resize ⟨[0, -1], .kLinear⟩ : TensorOperation ℚ) []
          = (some (TensorOperation.Resize ⟨[0, -1], .kLinear⟩), [])
      ∧ TensorOperation.Build (TensorOperation.Resize ⟨[0, -1], .kLinear⟩ :
            TensorOperation ℚ) []
          = some (TensorOp.ResizeOp 0 (-1) .kLinear, []))
    ∧ ((factory (TensorOperation.Pad ⟨[-1], [0], .kEdge⟩ : TensorOperation ℚ) []).1.isSome
        = (factory (TensorOperation.Pad ⟨[2], [128], .kConstant⟩ :
            TensorOperation ℚ) []).1.isSome
      ∧ factory (TensorOperation.Pad ⟨[-1], [0], .kEdge⟩ : TensorOperation ℚ) []
          = (some (TensorOperation.Pad ⟨[-1], [0], .kEdge⟩), [])
      ∧ TensorOperation.Build (TensorOperation.Pad ⟨[-1], [0], .kEdge⟩ : TensorOperation ℚ) []
          = some (TensorOp.PadOp (-1) (-1) (-1) (-1) .kEdge 0 0 0, [])) :=
  ⟨⟨(acceptance_depends_on_lengths
        (TensorOperation.CenterCrop ⟨[-5]⟩ : TensorOperation ℚ)
        (TensorOperation.CenterCrop ⟨[7]⟩) [] [] (by simp [Spec.sameLengths]) rfl).2,
      rfl, rfl⟩,
   ⟨(acceptance_depends_on_lengths
        (TensorOperation.Resize ⟨[0, -1], .kLinear⟩ : TensorOperation ℚ)
        (TensorOperation.Resize ⟨[32, 32], .kNearestNeighbour⟩) [] []
        (by simp [Spec.sameLengths]) rfl).2,
      rfl, rfl⟩,
   ⟨(acceptance_depends_on_lengths
        (TensorOperation.Pad ⟨[-1], [0], .kEdge⟩ : TensorOperation ℚ)
        (TensorOperation.Pad ⟨[2], [128], .kConstant⟩) [] []
        (by simp [Spec.sameLengths]) rfl).2,
      rfl, rfl⟩⟩

/-! ## Relations between the forms of the padding -/

/-- C18: the short forms of Pad are abbreviations. For all integers `a`, `b`, every fill `f`
of length 1 or 3, every byte `v`, every mode and every padding `p` of length 1, 2 or 4,
`Build` returns one kernel for the paddings `[a]`, `[a,a]` and `[a,a,a,a]` with fill `f`,
one kernel for `[a,b]` and `[a,b,a,b]` with fill `f`, and one kernel for the fills `[v]` and
`[v,v,v]` with padding `p`. -/
theorem Pad_short_forms (a b : Int) (v : Nat) (f : List Nat) (p : List Int)
    (m : BorderType) (log : Log)
    (hf : f.length = 1 ∨ f.length = 3)
    (hp : p.length = 1 ∨ p.length = 2 ∨ p.length = 4) :
    ∃ k1 k2 k3 : TensorOp F,
      PadOperation.Build ⟨[a], f, m⟩ log = some (k1, log)
      ∧ PadOperation.Build ⟨[a, a], f, m⟩ log = some (k1, log)
      ∧ PadOperation.Build ⟨[a, a, a, a], f, m⟩ log = some (k1, log)
      ∧ PadOperation.Build ⟨[a, b], f, m⟩ log = some (k2, log)
      ∧ PadOperation.Build ⟨[a, b, a, b], f, m⟩ log = some (k2, log)
      ∧ PadOperation.Build ⟨p, [v], m⟩ log = some (k3, log)
      ∧ PadOperation.Build ⟨p, [v, v, v], m⟩ log = some (k3, log) := by
  have hfill : (∃ x, f = [x]) ∨ (∃ r g b1, f = [r, g, b1]) :=
    hf.elim (fun h1 => Or.inl (length_one_shape f h1))
      (fun h3 => Or.inr (length_three_shape f h3))
  have hpad : (∃ x, p = [x]) ∨ (∃ x y, p = [x, y]) ∨ (∃ x y z w, p = [x, y, z, w]) :=
    hp.elim (fun h1 => Or.inl (length_one_shape p h1))
      (fun h => h.elim (fun h2 => Or.inr (Or.inl (length_two_shape p h2)))
        (fun h4 => Or.inr (Or.inr (length_four_shape p h4))))
  rcases hfill with ⟨x, rfl⟩ | ⟨r, g, b1, rfl⟩ <;>
    rcases hpad with ⟨x1, rfl⟩ | ⟨x1, y1, rfl⟩ | ⟨x1, y1, z1, w1, rfl⟩ <;>
    exact ⟨_, _, _, rfl, rfl, rfl, rfl, rfl, rfl, rfl⟩

/-- Witness of C18 at `a = 3`, `b = 5`, `v = 7`, fill `[10, 20, 30]` and padding
`[1, 2, 3, 4]`. -/
theorem Pad_short_forms_witness :
    ∃ k1 k2 k3 : TensorOp ℚ,
      PadOperation.Build ⟨[3], [10, 20, 30], .kReflect⟩ [] = some (k1, [])
      ∧ PadOperation.Build ⟨[3, 3], [10, 20, 30], .kReflect⟩ [] = some (k1, [])
      ∧ PadOperation.Build ⟨[3, 3, 3, 3], [10, 20, 30], .kReflect⟩ [] = some (k1, [])
      ∧ PadOperation.Build ⟨[3, 5], [10, 20, 30], .kReflect⟩ [] = some (k2, [])
      ∧ PadOperation.Build ⟨[3, 5, 3, 5], [10, 20, 30], .kReflect⟩ [] = some (k2, [])
      ∧ PadOperation.Build ⟨[1, 2, 3, 4], [7], .kReflect⟩ [] = some (k3, [])
      ∧ PadOperation.Build ⟨[1, 2, 3, 4], [7, 7, 7], .kReflect⟩ [] = some (k3, []) :=
  Pad_short_forms 3 5 7 [10, 20, 30] [1, 2, 3, 4] .kReflect [] (by decide) (by decide)

/-- C19: Pad and RandomCrop read a padding vector of four elements in different orders of
the sides. For `p = [p0, p1, p2, p3]` the kernel of `PadOperation::Build` has
`(top, bottom, left, right) = (p1, p3, p0, p2)` and the kernel of
`RandomCropOperation::Build` has `(p0, p1, p2, p3)`; the two quadruples are equal exactly
when the four elements are equal. -/
theorem Pad_RandomCrop_side_order (p : List Int) (fill : List Nat) (mode : BorderType)
    (size : List Int) (pad_if_needed : Bool) (fill3 : List Nat) (log : Log)
    (hp : p.length = 4) (hfill : fill.length = 1 ∨ fill.length = 3)
    (hsize : size.length = 1 ∨ size.length = 2) (hfill3 : fill3.length = 3) :
    ∃ (p0 p1 p2 p3 : Int) (kpad kcrop : TensorOp F),
      p = [p0, p1, p2, p3]
      ∧ PadOperation.Build ⟨p, fill, mode⟩ log = some (kpad, log)
      ∧ RandomCropOperation.Build ⟨size, p, pad_if_needed, fill3⟩ log = some (kcrop, log)
      ∧ kernelSides kpad = some (p1, p3, p0, p2)
      ∧ kernelSides kcrop = some (p0, p1, p2, p3)
      ∧ (kernelSides kpad = kernelSides kcrop ↔ p0 = p1 ∧ p1 = p2 ∧ p2 = p3) := by
  obtain ⟨p0, p1, p2, p3, rfl⟩ := length_four_shape p hp
  obtain ⟨r, g, b, rfl⟩ := length_three_shape fill3 hfill3
  have hiff : (some (p1, p3, p0, p2) = some (p0, p1, p2, p3)) ↔ p0 = p1 ∧ p1 = p2 ∧ p2 = p3 := by
    simp only [Option.some.injEq, Prod.mk.injEq]
    constructor
    · rintro ⟨h1, h2, h3, h4⟩
      exact ⟨h1.symm, h1.trans h3, h4⟩
    · rintro ⟨h1, h2, h3⟩
      exact ⟨h1.symm, (h1.trans (h2.trans h3)).symm.trans h1, h1.trans h2, h3⟩
  have hf : (∃ x, fill = [x]) ∨ (∃ x y z, fill = [x, y, z]) :=
    hfill.elim (fun h1 => Or.inl (length_one_shape fill h1))
      (fun h3 => Or.inr (length_three_shape fill h3))
  have hs : (∃ x, size = [x]) ∨ (∃ x y, size = [x, y]) :=
    hsize.elim (fun h1 => Or.inl (length_one_shape size h1))
      (fun h2 => Or.inr (length_two_shape size h2))
  rcases hf with ⟨x, rfl⟩ | ⟨x, y, z, rfl⟩ <;>
    rcases hs with ⟨h, rfl⟩ | ⟨h, w, rfl⟩ <;>
    exact ⟨p0, p1, p2, p3, _, _, rfl, rfl, rfl, rfl, rfl, hiff⟩

/-- Witness of C19 at `p = [1, 2, 3, 4]`, where the two kernels differ in their sides, with
the kernels written out. -/
theorem Pad_RandomCrop_side_order_witness :
    (PadOperation.Build ⟨[1, 2, 3, 4], [0], .kConstant⟩ [] : Option (TensorOp ℚ × Log))
        = some (TensorOp.PadOp 2 4 1 3 .kConstant 0 0 0, [])
    ∧ (RandomCropOperation.Build ⟨[5], [1, 2, 3, 4], false, [0, 0, 0]⟩ [] :
          Option (TensorOp ℚ × Log))
        = some (TensorOp.RandomCropOp 5 0 1 2 3 4 .kConstant false 0 0 0, [])
    ∧ kernelSides (TensorOp.PadOp 2 4 1 3 .kConstant 0 0 0 : TensorOp ℚ)
        ≠ kernelSides (TensorOp.RandomCropOp 5 0 1 2 3 4 .kConstant false 0 0 0 : TensorOp ℚ) := by
  obtain ⟨p0, p1, p2, p3, kpad, kcrop, hp, hB1, hB2, hs1, hs2, hiff⟩ :=
    Pad_RandomCrop_side_order (F := ℚ) [1, 2, 3, 4] [0] .kConstant [5] false [0, 0, 0] []
      (by decide) (by decide) (by decide) (by decide)
  simp only [List.cons.injEq, and_true] at hp
  obtain ⟨rfl, rfl, rfl, rfl⟩ := hp
  have e1 : kpad = TensorOp.PadOp 2 4 1 3 .kConstant 0 0 0 := by
    have h : (PadOperation.Build ⟨[1, 2, 3, 4], [0], .kConstant⟩ [] :
        Option (TensorOp ℚ × Log)) = some (TensorOp.PadOp 2 4 1 3 .kConstant 0 0 0, []) := rfl
    rw [hB1] at h
    simpa using h
  have e2 : kcrop = TensorOp.RandomCropOp 5 0 1 2 3 4 .kConstant false 0 0 0 := by
    have h : (RandomCropOperation.Build ⟨[5], [1, 2, 3, 4], false, [0, 0, 0]⟩ [] :
        Option (TensorOp ℚ × Log))
        = some (TensorOp.RandomCropOp 5 0 1 2 3 4 .kConstant false 0 0 0, []) := rfl
    rw [hB2] at h
    simpa using h
  subst e1 e2
  refine ⟨hB1, hB2, ?_⟩
  intro heq
  have h := hiff.mp heq
  exact absurd h.1 (by decide)

/-! ## The state-passing bodies against the bodies above -/

theorem lifts_readAt {S α : Type} (v : List α) (i : Nat) :
    Lifts (readAt v i : Method S α) v[i]? := fun _ => rfl

theorem lifts_pure {S α : Type} (a : α) : Lifts (pure a : Method S α) (pure a) :=
  fun _ => rfl

theorem lifts_some {S α : Type} (a : α) : Lifts (pure a : Method S α) (some a) :=
  fun _ => rfl

theorem lifts_bind {S α β : Type} (x : Method S α) (y : Option α) (f : α → Method S β)
    (g : α → Option β) (hx : Lifts x y) (hf : ∀ a, Lifts (f a) (g a)) :
    Lifts (x >>= f) (y >>= g) := by
  intro state
  show (x state).bind _ = _
  rw [hx state]
  cases y with
  | none => rfl
  | some a => exact hf a state

theorem lifts_ite {S α : Type} (c : Prop) [Decidable c] (x1 x2 : Method S α)
    (y1 y2 : Option α) (h1 : Lifts x1 y1) (h2 : Lifts x2 y2) :
    Lifts (if c then x1 else x2) (if c then y1 else y2) := by
  split
  · exact h1
  · exact h2

theorem agrees_pure {S α : Type} (a : α) (op : S) (log : Log) :
    Agrees (pure a : Method S α) (pure (a, log)) op log := rfl

theorem agrees_bind {S α β : Type} (x : Method S α) (y : Option α) (f : α → Method S β)
    (g : α → Option (β × Log)) (op : S) (log : Log) (hx : Lifts x y)
    (h : ∀ a, Agrees (f a) (g a) op log) :
    Agrees (x >>= f) (y >>= g) op log := by
  show (x (op, log)).bind _ = _
  rw [hx (op, log)]
  cases y with
  | none => rfl
  | some a => exact h a

theorem agrees_ite {S α : Type} (c : Prop) [Decidable c] (m1 m2 : Method S α)
    (p1 p2 : Option (α × Log)) (op : S) (log : Log)
    (h1 : Agrees m1 p1 op log) (h2 : Agrees m2 p2 op log) :
    Agrees (if c then m1 else m2) (if c then p1 else p2) op log := by
  split
  · exact h1
  · exact h2

theorem agrees_readThis_bind {S α : Type} (f : S → Method S α) (p : Option (α × Log))
    (op : S) (log : Log) (h : Agrees (f op) p op log) :
    Agrees (readThis >>= f) p op log := h

theorem lifts_sidesM (padding_ : List Int) :
    Lifts (PadOperation.sidesM padding_) (PadOperation.sides padding_) := by
  unfold PadOperation.sidesM PadOperation.sides
  split <;>
    repeat' (first
      | with_reducible exact lifts_pure _
      | with_reducible exact lifts_readAt _ _
      | with_reducible refine lifts_bind _ _ _ _ ?_ fun _ => ?_)

theorem Pad_BuildM_agrees (op : PadOperation) (log : Log) :
    Agrees (PadOperation.BuildM : Method PadOperation (TensorOp F)) (op.Build log) op log := by
  unfold PadOperation.BuildM PadOperation.Build
  refine agrees_readThis_bind _ _ _ _ ?_
  refine agrees_bind _ _ _ _ _ _ (lifts_sidesM _) fun ⟨_, _, _, _⟩ => ?_
  repeat' (first
    | with_reducible exact agrees_pure _ _ _
    | with_reducible refine agrees_bind _ _ _ _ _ _ (lifts_readAt _ _) fun _ => ?_
    | with_reducible refine agrees_bind _ _ _ _ _ _ (lifts_pure _) fun _ => ?_
    | with_reducible refine agrees_bind _ _ _ _ _ _ (lifts_some _) fun _ => ?_
    | with_reducible refine agrees_ite _ _ _ _ _ _ _ ?_ ?_)

theorem CenterCrop_BuildM_agrees (op : CenterCropOperation) (log : Log) :
    Agrees (CenterCropOperation.BuildM : Method (CenterCropOperation) (TensorOp F)) (op.Build log) op log := by
  unfold CenterCropOperation.BuildM CenterCropOperation.Build
  refine agrees_readThis_bind _ _ _ _ ?_
  repeat' (first
    | with_reducible exact agrees_pure _ _ _
    | with_reducible refine agrees_bind _ _ _ _ _ _ (lifts_readAt _ _) fun _ => ?_
    | with_reducible refine agrees_bind _ _ _ _ _ _ (lifts_pure _) fun _ => ?_
    | with_reducible refine agrees_bind _ _ _ _ _ _ (lifts_some _) fun _ => ?_
    | with_reducible refine agrees_ite _ _ _ _ _ _ _ ?_ ?_)

theorem Normalize_BuildM_agrees (op : NormalizeOperation F) (log : Log) :
    Agrees (NormalizeOperation.BuildM : Method (NormalizeOperation F) (TensorOp F)) (op.Build log) op log := by
  unfold NormalizeOperation.BuildM NormalizeOperation.Build
  refine agrees_readThis_bind _ _ _ _ ?_
  repeat' (first
    | with_reducible exact agrees_pure _ _ _
    | with_reducible refine agrees_bind _ _ _ _ _ _ (lifts_readAt _ _) fun _ => ?_)

theorem RandomColorAdjust_BuildM_agrees (op : RandomColorAdjustOperation F) (log : Log) :
    Agrees (RandomColorAdjustOperation.BuildM : Method (RandomColorAdjustOperation F) (TensorOp F)) (op.Build log) op log := by
  unfold RandomColorAdjustOperation.BuildM RandomColorAdjustOperation.Build
  refine agrees_readThis_bind _ _ _ _ ?_
  repeat' (first
    | with_reducible exact agrees_pure _ _ _
    | with_reducible refine agrees_bind _ _ _ _ _ _ (lifts_readAt _ _) fun _ => ?_
    | with_reducible refine agrees_bind _ _ _ _ _ _ (lifts_pure _) fun _ => ?_
    | with_reducible refine agrees_bind _ _ _ _ _ _ (lifts_some _) fun _ => ?_
    | with_reducible refine agrees_ite _ _ _ _ _ _ _ ?_ ?_)

theorem RandomCrop_BuildM_agrees (op : RandomCropOperation) (log : Log) :
    Agrees (RandomCropOperation.BuildM : Method (RandomCropOperation) (TensorOp F)) (op.Build log) op log := by
  unfold RandomCropOperation.BuildM RandomCropOperation.Build
  refine agrees_readThis_bind _ _ _ _ ?_
  repeat' (first
    | with_reducible exact agrees_pure _ _ _
    | with_reducible refine agrees_bind _ _ _ _ _ _ (lifts_readAt _ _) fun _ => ?_
    | with_reducible refine agrees_bind _ _ _ _ _ _ (lifts_pure _) fun _ => ?_
    | with_reducible refine agrees_bind _ _ _ _ _ _ (lifts_some _) fun _ => ?_
    | with_reducible refine agrees_ite _ _ _ _ _ _ _ ?_ ?_)

theorem RandomRotation_BuildM_agrees (op : RandomRotationOperation F) (log : Log) :
    Agrees (RandomRotationOperation.BuildM : Method (RandomRotationOperation F) (TensorOp F)) (op.Build log) op log := by
  unfold RandomRotationOperation.BuildM RandomRotationOperation.Build
  refine agrees_readThis_bind _ _ _ _ ?_
  repeat' (first
    | with_reducible exact agrees_pure _ _ _
    | with_reducible refine agrees_bind _ _ _ _ _ _ (lifts_readAt _ _) fun _ => ?_)

theorem Resize_BuildM_agrees (op : ResizeOperation) (log : Log) :
    Agrees (ResizeOperation.BuildM : Method (ResizeOperation) (TensorOp F)) (op.Build log) op log := by
  unfold ResizeOperation.BuildM ResizeOperation.Build
  refine agrees_readThis_bind _ _ _ _ ?_
  repeat' (first
    | with_reducible exact agrees_pure _ _ _
    | with_reducible refine agrees_bind _ _ _ _ _ _ (lifts_readAt _ _) fun _ => ?_
    | with_reducible refine agrees_bind _ _ _ _ _ _ (lifts_pure _) fun _ => ?_
    | with_reducible refine agrees_bind _ _ _ _ _ _ (lifts_some _) fun _ => ?_
    | with_reducible refine agrees_ite _ _ _ _ _ _ _ ?_ ?_)

theorem CutOut_BuildM_agrees (op : CutOutOperation) (log : Log) :
    Agrees (CutOutOperation.BuildM : Method (CutOutOperation) (TensorOp F)) (op.Build log) op log := rfl

theorem Decode_BuildM_agrees (op : DecodeOperation) (log : Log) :
    Agrees (DecodeOperation.BuildM : Method (DecodeOperation) (TensorOp F)) (op.Build log) op log := rfl

theorem RandomHorizontalFlip_BuildM_agrees (op : RandomHorizontalFlipOperation F) (log : Log) :
    Agrees (RandomHorizontalFlipOperation.BuildM : Method (RandomHorizontalFlipOperation F) (TensorOp F)) (op.Build log) op log := rfl

theorem RandomVerticalFlip_BuildM_agrees (op : RandomVerticalFlipOperation F) (log : Log) :
    Agrees (RandomVerticalFlipOperation.BuildM : Method (RandomVerticalFlipOperation F) (TensorOp F)) (op.Build log) op log := rfl

theorem CenterCrop_ValidateParamsM_eq (op : CenterCropOperation) (log : Log) :
    CenterCropOperation.ValidateParamsM (op, log)
      = some ((op.ValidateParams log).1, op, (op.ValidateParams log).2) := by
  unfold CenterCropOperation.ValidateParamsM CenterCropOperation.ValidateParams
  simp only [bind, StateT.bind, readThis, logError, pure, StateT.pure, Option.bind]
  split_ifs <;> rfl

theorem CutOut_ValidateParamsM_eq (op : CutOutOperation) (log : Log) :
    CutOutOperation.ValidateParamsM (op, log)
      = some ((op.ValidateParams log).1, op, (op.ValidateParams log).2) := by
  unfold CutOutOperation.ValidateParamsM CutOutOperation.ValidateParams
  simp only [bind, StateT.bind, readThis, logError, pure, StateT.pure, Option.bind]
  split_ifs <;> rfl

theorem Normalize_ValidateParamsM_eq (op : NormalizeOperation F) (log : Log) :
    NormalizeOperation.ValidateParamsM (op, log)
      = some ((op.ValidateParams log).1, op, (op.ValidateParams log).2) := by
  unfold NormalizeOperation.ValidateParamsM NormalizeOperation.ValidateParams
  simp only [bind, StateT.bind, readThis, logError, pure, StateT.pure, Option.bind]
  split_ifs <;> rfl

theorem Pad_ValidateParamsM_eq (op : PadOperation) (log : Log) :
    PadOperation.ValidateParamsM (op, log)
      = some ((op.ValidateParams log).1, op, (op.ValidateParams log).2) := by
  unfold PadOperation.ValidateParamsM PadOperation.ValidateParams
  simp only [bind, StateT.bind, readThis, logError, pure, StateT.pure, Option.bind]
  split_ifs <;> rfl

theorem RandomColorAdjust_ValidateParamsM_eq (op : RandomColorAdjustOperation F) (log : Log) :
    RandomColorAdjustOperation.ValidateParamsM (op, log)
      = some ((op.ValidateParams log).1, op, (op.ValidateParams log).2) := by
  unfold RandomColorAdjustOperation.ValidateParamsM RandomColorAdjustOperation.ValidateParams
  simp only [bind, StateT.bind, readThis, logError, pure, StateT.pure, Option.bind]
  split_ifs <;> rfl

theorem RandomCrop_ValidateParamsM_eq (op : RandomCropOperation) (log : Log) :
    RandomCropOperation.ValidateParamsM (op, log)
      = some ((op.ValidateParams log).1, op, (op.ValidateParams log).2) := by
  unfold RandomCropOperation.ValidateParamsM RandomCropOperation.ValidateParams
  simp only [bind, StateT.bind, readThis, logError, pure, StateT.pure, Option.bind]
  split_ifs <;> rfl

theorem RandomRotation_ValidateParamsM_eq (op : RandomRotationOperation F) (log : Log) :
    RandomRotationOperation.ValidateParamsM (op, log)
      = some ((op.ValidateParams log).1, op, (op.ValidateParams log).2) := by
  unfold RandomRotationOperation.ValidateParamsM RandomRotationOperation.ValidateParams
  simp only [bind, StateT.bind, readThis, logError, pure, StateT.pure, Option.bind]
  split_ifs <;> rfl

theorem Resize_ValidateParamsM_eq (op : ResizeOperation) (log : Log) :
    ResizeOperation.ValidateParamsM (op, log)
      = some ((op.ValidateParams log).1, op, (op.ValidateParams log).2) := by
  unfold ResizeOperation.ValidateParamsM ResizeOperation.ValidateParams
  simp only [bind, StateT.bind, readThis, logError, pure, StateT.pure, Option.bind]
  split_ifs <;> rfl

/-- The state-passing `ValidateParams` returns the boolean and the log of `ValidateParams`
above, and the object it was called on. -/
theorem ValidateParamsM_eq (op : TensorOperation F) (log : Log) :
    op.ValidateParamsM log = some ((op.ValidateParams log).1, op, (op.ValidateParams log).2) := by
  cases op with
  | CenterCrop op =>
    simp only [TensorOperation.ValidateParamsM, TensorOperation.ValidateParams,
      CenterCrop_ValidateParamsM_eq op log, Option.map_some']
  | CutOut op =>
    simp only [TensorOperation.ValidateParamsM, TensorOperation.ValidateParams,
      CutOut_ValidateParamsM_eq op log, Option.map_some']
  | Decode op => rfl
  | Normalize op =>
    simp only [TensorOperation.ValidateParamsM, TensorOperation.ValidateParams,
      Normalize_ValidateParamsM_eq op log, Option.map_some']
  | Pad op =>
    simp only [TensorOperation.ValidateParamsM, TensorOperation.ValidateParams,
      Pad_ValidateParamsM_eq op log, Option.map_some']
  | RandomColorAdjust op =>
    simp only [TensorOperation.ValidateParamsM, TensorOperation.ValidateParams,
      RandomColorAdjust_ValidateParamsM_eq op log, Option.map_some']
  | RandomCrop op =>
    simp only [TensorOperation.ValidateParamsM, TensorOperation.ValidateParams,
      RandomCrop_ValidateParamsM_eq op log, Option.map_some']
  | RandomHorizontalFlip op => rfl
  | RandomRotation op =>
    simp only [TensorOperation.ValidateParamsM, TensorOperation.ValidateParams,
      RandomRotation_ValidateParamsM_eq op log, Option.map_some']
  | RandomVerticalFlip op => rfl
  | Resize op =>
    simp only [TensorOperation.ValidateParamsM, TensorOperation.ValidateParams,
      Resize_ValidateParamsM_eq op log, Option.map_some']
  | UniformAug transforms_ num_ops_ => rfl

mutual
/-- The state-passing `Build` returns the kernel and the log of `Build` above, and the
object it was called on. -/
theorem BuildM_eq :
    ∀ (op : TensorOperation F) (log : Log),
      op.BuildM log = (op.Build log).map (fun r => (r.1, op, r.2))
  | .CenterCrop op, log => by
    have h := CenterCrop_BuildM_agrees (F := F) op log
    unfold Agrees at h
    simp only [TensorOperation.BuildM, TensorOperation.Build, h, Option.map_map]
    rfl
  | .CutOut op, log => by
    have h := CutOut_BuildM_agrees (F := F) op log
    unfold Agrees at h
    simp only [TensorOperation.BuildM, TensorOperation.Build, h, Option.map_map]
    rfl
  | .Decode op, log => by
    have h := Decode_BuildM_agrees (F := F) op log
    unfold Agrees at h
    simp only [TensorOperation.BuildM, TensorOperation.Build, h, Option.map_map]
    rfl
  | .Normalize op, log => by
    have h := Normalize_BuildM_agrees (F := F) op log
    unfold Agrees at h
    simp only [TensorOperation.BuildM, TensorOperation.Build, h, Option.map_map]
    rfl
  | .Pad op, log => by
    have h := Pad_BuildM_agrees (F := F) op log
    unfold Agrees at h
    simp only [TensorOperation.BuildM, TensorOperation.Build, h, Option.map_map]
    rfl
  | .RandomColorAdjust op, log => by
    have h := RandomColorAdjust_BuildM_agrees (F := F) op log
    unfold Agrees at h
    simp only [TensorOperation.BuildM, TensorOperation.Build, h, Option.map_map]
    rfl
  | .RandomCrop op, log => by
    have h := RandomCrop_BuildM_agrees (F := F) op log
    unfold Agrees at h
    simp only [TensorOperation.BuildM, TensorOperation.Build, h, Option.map_map]
    rfl
  | .RandomHorizontalFlip op, log => by
    have h := RandomHorizontalFlip_BuildM_agrees (F := F) op log
    unfold Agrees at h
    simp only [TensorOperation.BuildM, TensorOperation.Build, h, Option.map_map]
    rfl
  | .RandomRotation op, log => by
    have h := RandomRotation_BuildM_agrees (F := F) op log
    unfold Agrees at h
    simp only [TensorOperation.BuildM, TensorOperation.Build, h, Option.map_map]
    rfl
  | .RandomVerticalFlip op, log => by
    have h := RandomVerticalFlip_BuildM_agrees (F := F) op log
    unfold Agrees at h
    simp only [TensorOperation.BuildM, TensorOperation.Build, h, Option.map_map]
    rfl
  | .Resize op, log => by
    have h := Resize_BuildM_agrees (F := F) op log
    unfold Agrees at h
    simp only [TensorOperation.BuildM, TensorOperation.Build, h, Option.map_map]
    rfl
  | .UniformAug transforms_ num_ops_, log => by
    have ih := BuildEachM_eq transforms_ log
    simp only [TensorOperation.BuildM, TensorOperation.Build, ih]
    cases TensorOperation.BuildEach transforms_ log with
    | none => rfl
    | some p => rfl
theorem BuildEachM_eq :
    ∀ (transforms : List (Option (TensorOperation F))) (log : Log),
      TensorOperation.BuildEachM transforms log
        = (TensorOperation.BuildEach transforms log).map (fun r => (r.1, transforms, r.2))
  | [], _ => rfl
  | none :: _, _ => rfl
  | some op :: rest, log => by
    have ih1 := BuildM_eq op log
    simp only [TensorOperation.BuildEachM, TensorOperation.BuildEach, ih1]
    cases TensorOperation.Build op log with
    | none => rfl
    | some p =>
      obtain ⟨k, log1⟩ := p
      have ih2 := BuildEachM_eq rest log1
      simp only [Option.map_some', ih2]
      cases TensorOperation.BuildEach rest log1 with
      | none => rfl
      | some q => rfl
end

theorem validateTimes_eq (op : TensorOperation F) :
    ∀ (n : Nat) (log : Log),
      ∃ logn, validateTimes n op log
        = some (List.replicate n (op.ValidateParams log).1, op, logn)
  | 0, log => ⟨log, rfl⟩
  | n + 1, log => by
    obtain ⟨logn, h⟩ := validateTimes_eq op n (op.ValidateParams log).2
    refine ⟨logn, ?_⟩
    rw [ValidateParams_fst_log op (op.ValidateParams log).2 log] at h
    simp only [validateTimes, ValidateParamsM_eq op log, h, List.replicate_succ]

/-! ## Repeated calls -/

/-- C14: `ValidateParams` is idempotent and leaves the descriptor unchanged. A call on any
descriptor, valid or not, returns with every stored parameter as it was before the call; a
second call, made on the state the first one left, returns the same boolean; so do `n`
successive calls, after which the stored parameters are still the initial ones; and
`Build` called after them returns the kernel that `Build` returns on the fresh descriptor,
which is a kernel whenever the descriptor is validated. -/
theorem ValidateParams_idempotent (op : TensorOperation F) (log : Log) (n : Nat) :
    ∃ ok log1 log2 logn,
      op.ValidateParamsM log = some (ok, op, log1)
      ∧ op.ValidateParamsM log1 = some (ok, op, log2)
      ∧ validateTimes n op log = some (List.replicate n ok, op, logn)
      ∧ buildAfterValidate n op log = (op.BuildM log).map Prod.fst
      ∧ (op.validated log = true → ∃ kernel, buildAfterValidate n op log = some kernel) := by
  obtain ⟨logn, hn⟩ := validateTimes_eq op n log
  have hbuild : buildAfterValidate n op log = (op.BuildM log).map Prod.fst := by
    simp only [buildAfterValidate, hn, BuildM_eq op logn, BuildM_eq op log, Option.map_map]
    exact Build_kernel_log op log logn
  refine ⟨(op.ValidateParams log).1, (op.ValidateParams log).2,
    (op.ValidateParams (op.ValidateParams log).2).2, logn,
    ValidateParamsM_eq op log, ?_, hn, hbuild, ?_⟩
  · rw [ValidateParamsM_eq op (op.ValidateParams log).2,
      ValidateParams_fst_log op (op.ValidateParams log).2 log]
  · intro hv
    obtain ⟨kernel, hk⟩ := Build_of_validated op log hv
    exact ⟨kernel, by rw [hbuild, BuildM_eq op log, hk]; rfl⟩

/-- Witness of C14 at an invalid descriptor, `Pad([1,2,3,4,5], [9,8])`: three calls return
false three times and write three lines, the descriptor is unchanged, and `Build` after
them returns the kernel it returns before them. -/
theorem ValidateParams_idempotent_witness :
    validateTimes 3
        (TensorOperation.Pad ⟨[1, 2, 3, 4, 5], [9, 8], .kEdge⟩ : TensorOperation ℚ) []
      = some ([false, false, false], TensorOperation.Pad ⟨[1, 2, 3, 4, 5], [9, 8], .kEdge⟩,
          ["Pad: padding vector has incorrect size: padding.size()",
           "Pad: padding vector has incorrect size: padding.size()",
           "Pad: padding vector has incorrect size: padding.size()"])
    ∧ buildAfterValidate 3
        (TensorOperation.Pad ⟨[1, 2, 3, 4, 5], [9, 8], .kEdge⟩ : TensorOperation ℚ) []
      = some (TensorOp.PadOp 2 4 1 3 .kEdge 9 9 9) := by
  obtain ⟨ok, log1, log2, logn, h1, _, hn, hb, _⟩ :=
    ValidateParams_idempotent
      (TensorOperation.Pad ⟨[1, 2, 3, 4, 5], [9, 8], .kEdge⟩ : TensorOperation ℚ) [] 3
  refine ⟨rfl, ?_⟩
  rw [hb]
  rfl

/-- C15: `Build` is a function of the parameters of the descriptor and does not consume
it. For every validated descriptor a call of `Build` returns a kernel and leaves the stored
parameters and the log as they were, and each of `k` successive calls, made on the state the
call before it left, returns the kernel of the first call. -/
theorem Build_repeatable (op : TensorOperation F) (log : Log) (k : Nat)
    (h : op.validated log = true) :
    ∃ kernel, op.BuildM log = some (kernel, op, log)
      ∧ buildTimes k op log = some (List.replicate k kernel, op, log) := by
  obtain ⟨kernel, hk⟩ := Build_of_validated op log h
  have hM : op.BuildM log = some (kernel, op, log) := by
    rw [BuildM_eq op log, hk]
    rfl
  refine ⟨kernel, hM, ?_⟩
  induction k with
  | zero => rfl
  | succ j ih => simp only [buildTimes, hM, ih, List.replicate_succ]

/-- Witness of C15 at `Pad([1,2], [10,20,30], REFLECT)` with three calls of `Build`. -/
theorem Build_repeatable_witness :
    buildTimes 3
        (TensorOperation.Pad ⟨[1, 2], [10, 20, 30], .kReflect⟩ : TensorOperation ℚ) []
      = some ([TensorOp.PadOp 2 2 1 1 .kReflect 10 20 30,
               TensorOp.PadOp 2 2 1 1 .kReflect 10 20 30,
               TensorOp.PadOp 2 2 1 1 .kReflect 10 20 30],
          TensorOperation.Pad ⟨[1, 2], [10, 20, 30], .kReflect⟩, []) := by
  obtain ⟨kernel, hk, hB⟩ :=
    Build_repeatable
      (TensorOperation.Pad ⟨[1, 2], [10, 20, 30], .kReflect⟩ : TensorOperation ℚ) [] 3
      (by decide)
  have h0 : TensorOperation.BuildM
      (TensorOperation.Pad ⟨[1, 2], [10, 20, 30], .kReflect⟩ : TensorOperation ℚ) []
      = some (TensorOp.PadOp 2 2 1 1 .kReflect 10 20 30,
          TensorOperation.Pad ⟨[1, 2], [10, 20, 30], .kReflect⟩, []) := rfl
  rw [hk] at h0
  simp only [Option.some.injEq, Prod.mk.injEq, and_true] at h0
  subst h0
  exact hB

end api.vision

end mindspore.dataset
